import Mathlib

/-!
# SyncProfile (buteo-syncfw, libsyncprofile/SyncProfile.cpp)

A shallow embedding of the retry / scheduling / serialisation logic of
`Buteo::SyncProfile` and proofs of its specified properties.

Conventions of the embedding:

* C++ `int` values are `Int`s; the two places where the source does `int`
  arithmetic (`mSyncRetryCount++` and `at(i) * 60`) wrap modulo `2^32`
  (`wrapInt32`).
* a `QDateTime` is either null or a number of seconds; the clock read by
  `QDateTime::currentDateTime()` is an explicit argument `now`.
* a `QDomElement` is a tree node; a null element is `QDomNode.null`.
* `QList<int>::at` outside the list fails: `QList.at` returns `none`, and the
  functions that call it return `Option` (`none` = failed access).
* constants of `ProfileEngineDefs.h` and the collaborators `Profile`,
  `SyncSchedule`, `SyncLog` are not part of `SyncProfile.cpp`; constants are
  fields of `ProfileEngineDefs`, collaborator (de)serialisers are fields of
  `Collaborators`.
-/

namespace Buteo

/-! ## Machine integers -/

/-- Largest value of a C++ `int` (32 bit). -/
def INT_MAX : Int := 2147483647

/-- Smallest value of a C++ `int` (32 bit). -/
def INT_MIN : Int := -2147483648

/-- Membership in the range of a 32-bit `int`. -/
def isInt32 (x : Int) : Prop := INT_MIN ≤ x ∧ x ≤ INT_MAX

instance (x : Int) : Decidable (isInt32 x) := by unfold isInt32; infer_instance

/-- Two's complement wrap-around of an exact integer result to 32 bits. -/
def wrapInt32 (x : Int) : Int := (x + 2147483648) % 4294967296 - 2147483648

/-! ## QString number conversions (Qt, base 10) -/

/-- Whitespace as skipped by `QString::toInt` at both ends of the string. -/
def isSpace (c : Char) : Bool :=
  c = ' ' || c = '\t' || c = '\n' || c = '\r' || c.toNat = 11 || c.toNat = 12

/-- Value of an ASCII decimal digit. -/
def digitValue (c : Char) : Option Nat :=
  if 48 ≤ c.toNat ∧ c.toNat ≤ 57 then some (c.toNat - 48) else none

/-- ASCII character of a decimal digit. -/
def digitChar (d : Nat) : Char :=
  match d with
  | 0 => '0' | 1 => '1' | 2 => '2' | 3 => '3' | 4 => '4'
  | 5 => '5' | 6 => '6' | 7 => '7' | 8 => '8' | _ => '9'

/-- Left-to-right accumulation of decimal digits; fails on a non-digit. -/
def parseDigitsAux : List Char → Nat → Option Nat
  | [], acc => some acc
  | c :: cs, acc =>
    match digitValue c with
    | none => none
    | some d => parseDigitsAux cs (10 * acc + d)

/-- A non-empty string of decimal digits as a natural number. -/
def parseDigits (cs : List Char) : Option Nat :=
  match cs with
  | [] => none
  | _ :: _ => parseDigitsAux cs 0

/-- Removal of leading and trailing whitespace. -/
def trimSpaces (cs : List Char) : List Char :=
  ((cs.dropWhile isSpace).reverse.dropWhile isSpace).reverse

/-- Model of `QString::toInt(&ok)` in base 10: surrounding whitespace is
ignored, an optional sign is followed by at least one decimal digit, and the
value has to fit a 32-bit `int`; `none` stands for `ok == false`. -/
def QString.toInt (s : String) : Option Int :=
  match trimSpaces s.data with
  | [] => none
  | c :: cs =>
    if c = '-' then
      match parseDigits cs with
      | none => none
      | some n => if (n : Int) ≤ 2147483648 then some (-(n : Int)) else none
    else if c = '+' then
      match parseDigits cs with
      | none => none
      | some n => if (n : Int) ≤ INT_MAX then some (n : Int) else none
    else
      match parseDigits (c :: cs) with
      | none => none
      | some n => if (n : Int) ≤ INT_MAX then some (n : Int) else none

/-- Decimal digits of a natural number, most significant first; the first
argument bounds the number of digits. -/
def natDigitsAux : Nat → Nat → List Char
  | 0, _ => []
  | fuel + 1, n =>
    if n < 10 then [digitChar n]
    else natDigitsAux fuel (n / 10) ++ [digitChar (n % 10)]

/-- Decimal digits of a natural number (`n + 1` digits always suffice). -/
def natDigits (n : Nat) : List Char := natDigitsAux (n + 1) n

/-- Model of `QString::number(int)`, which `QDomElement::setAttribute(name, int)`
uses to store an `int` attribute value. -/
def QString.number (n : Int) : String :=
  if n < 0 then String.mk ('-' :: natDigits n.natAbs) else String.mk (natDigits n.natAbs)

/-! ## QDom documents -/

/-- A DOM node: the null node, a non-element node (text, comment, ...), or an
element with tag name, attributes and child nodes in document order. -/
inductive QDomNode where
  | null : QDomNode
  | text : String → QDomNode
  | element : String → List (String × String) → List QDomNode → QDomNode

namespace QDomNode

/-- Source: `QDomNode::isNull`. -/
def isNull : QDomNode → Bool
  | null => true
  | _ => false

/-- Whether the node is an element with the given tag name. -/
def isElementNamed (tag : String) : QDomNode → Bool
  | element t _ _ => t == tag
  | _ => false

/-- Child nodes in document order (none for a null or non-element node). -/
def childNodes : QDomNode → List QDomNode
  | element _ _ cs => cs
  | _ => []

/-- First node of a sibling sequence that is an element with the given tag
name; the null node if there is none. -/
def firstNamed (tag : String) : List QDomNode → QDomNode
  | [] => null
  | n :: rest => if n.isElementNamed tag then n else firstNamed tag rest

/-- Source: `QDomNode::firstChildElement(tagName)`. -/
def firstChildElement (n : QDomNode) (tag : String) : QDomNode :=
  firstNamed tag n.childNodes

/-- Lookup in an attribute list. -/
def lookupAttr (name : String) : List (String × String) → Option String
  | [] => none
  | (k, v) :: rest => if k == name then some v else lookupAttr name rest

/-- Source: `QDomElement::attribute(name, defValue)`. -/
def attributeValue (n : QDomNode) (name defValue : String) : String :=
  match n with
  | element _ attrs _ => (lookupAttr name attrs).getD defValue
  | _ => defValue

/-- Source: `QDomNode::appendChild`: the new child becomes the last child; appending
to a node that is not an element has no effect. -/
def appendChild (n newChild : QDomNode) : QDomNode :=
  match n with
  | element t attrs cs => element t attrs (cs ++ [newChild])
  | other => other

end QDomNode

/-! ## Constants of ProfileEngineDefs.h -/

/-- The string constants of `ProfileEngineDefs.h` and `Profile.h` that
`SyncProfile.cpp` refers to. The header is not part of the verified unit, so
the constants are parameters of the embedding. -/
structure ProfileEngineDefs where
  TAG_SCHEDULE : String
  TAG_ERROR_ATTEMPTS : String
  TAG_ATTEMPT_DELAY : String
  ATTR_VALUE : String
  KEY_SYNC_SCHEDULED : String
  KEY_BACKEND : String
  KEY_DESTINATION_TYPE : String
  KEY_SYNC_DIRECTION : String
  KEY_SOC_AFTER : String
  KEY_CONFLICT_RESOLUTION_POLICY : String
  VALUE_ONLINE : String
  VALUE_DEVICE : String
  VALUE_TWO_WAY : String
  VALUE_FROM_REMOTE : String
  VALUE_TO_REMOTE : String
  VALUE_PREFER_REMOTE : String
  VALUE_PREFER_LOCAL : String
  BOOLEAN_TRUE : String
  TYPE_SYNC : String
  TYPE_STORAGE : String
  TYPE_SERVICE : String
  TYPE_CLIENT : String
  TYPE_SERVER : String

/-! ## Collaborators: QDateTime, SyncLog, SyncSchedule, Profile -/

/-- A `QDateTime`: null, or a point in time counted in seconds. -/
inductive QDateTime where
  | null : QDateTime
  | secs : Int → QDateTime
deriving DecidableEq, Repr

/-- Source: `QDateTime::addSecs`; a null time stays null. -/
def QDateTime.addSecs : QDateTime → Int → QDateTime
  | QDateTime.null, _ => QDateTime.null
  | QDateTime.secs t, s => QDateTime.secs (t + s)

/-- Modelled from the spec: `SyncResults` is not part of `SyncProfile.cpp`;
the spec consumes it only through `.syncTime()`. -/
structure SyncResults where
  syncTime : QDateTime
deriving DecidableEq, Repr

/-- Modelled from the spec: `SyncLog` is not part of `SyncProfile.cpp`; the
spec gives it a profile name, `addResults(result)` and
`lastResults() -> optional result`, the most recent entry. -/
structure SyncLog where
  profileName : String
  results : List SyncResults
deriving DecidableEq, Repr

/-- Modelled from the spec: `SyncLog::lastResults`, the most recent entry of
the log, or a null pointer (`none`) when the log has no entries. -/
def SyncLog.lastResults (l : SyncLog) : Option SyncResults := l.results.getLast?

/-- Modelled from the spec: `SyncLog::addResults` appends an entry. -/
def SyncLog.addResults (l : SyncLog) (r : SyncResults) : SyncLog :=
  { l with results := l.results ++ [r] }

/-- Modelled from the spec: `SyncSchedule`, the periodic-schedule calculator,
is not part of `SyncProfile.cpp`. It is an opaque value consumed through
`nextSyncTime(lastSync) -> optional timestamp` and `toXml() -> element`. -/
structure SyncSchedule where
  nextSyncTime : QDateTime → QDateTime
  toXml : QDomNode

/-- Modelled from the spec: a sub-profile of the `Profile` base class (which
is not part of `SyncProfile.cpp`): a named, typed child configuration with
string keys and an enabled flag, kept in an ordered (flattened) sequence. -/
structure SubProfile where
  name : String
  type : String
  keys : List (String × String)
  enabled : Bool
deriving DecidableEq, Repr

/-- Modelled from the spec: the `Profile` base class (not part of
`SyncProfile.cpp`): name, type, string keys and the ordered sequence of
sub-profiles. -/
structure Profile where
  name : String
  type : String
  keys : List (String × String)
  subProfiles : List SubProfile
deriving DecidableEq, Repr

/-- Lookup of a key in a key list. -/
def lookupKey (aName : String) : List (String × String) → Option String
  | [] => none
  | (k, v) :: rest => if k == aName then some v else lookupKey aName rest

/-- Modelled from the spec: `Profile::key(name, default) -> string` on a
sub-profile: the value of the key, or the default when the key is unset. -/
def SubProfile.key (p : SubProfile) (aName aDefault : String) : String :=
  (lookupKey aName p.keys).getD aDefault

/-- Modelled from the spec: `Profile::isEnabled() -> bool`. -/
def SubProfile.isEnabled (p : SubProfile) : Bool := p.enabled

/-- Modelled from the spec: `Profile::key(name, default) -> string`. -/
def Profile.key (p : Profile) (aName aDefault : String) : String :=
  (lookupKey aName p.keys).getD aDefault

/-- Modelled from the spec: `Profile::boolKey(name) -> bool`, true when the
key holds the boolean-true string. -/
def Profile.boolKey (defs : ProfileEngineDefs) (p : Profile) (aName : String) : Bool :=
  p.key aName "" == defs.BOOLEAN_TRUE

/-- Modelled from the spec: `Profile::subProfileNames(type) -> ordered
sequence of string`, the names of the sub-profiles of the given type in
enumeration order. -/
def Profile.subProfileNames (p : Profile) (aType : String) : List String :=
  (p.subProfiles.filter (fun s => s.type == aType)).map (fun s => s.name)

/-- Modelled from the spec: `Profile::subProfile(name, type) -> profile or
none`, the first sub-profile with the given name and type. -/
def Profile.subProfile (p : Profile) (aName aType : String) : Option SubProfile :=
  p.subProfiles.find? (fun s => s.name == aName && s.type == aType)

/-- The collaborator operations that `SyncProfile.cpp` calls but does not
define: the base-class (de)serialiser and the constructors of the schedule. -/
structure Collaborators where
  /-- Source: `Profile::Profile(const QDomElement &)`. -/
  profileOfXml : QDomNode → Profile
  /-- Source: `Profile::toXml(aDoc, aLocalOnly)`. -/
  profileToXml : Profile → Bool → QDomNode
  /-- Source: `SyncSchedule::SyncSchedule(const QDomElement &)`. -/
  scheduleOfXml : QDomNode → SyncSchedule
  /-- Source: `SyncSchedule::SyncSchedule()`. -/
  defaultSchedule : SyncSchedule

/-! ## SyncProfilePrivate and SyncProfile -/

/-- Source: `QList<int>::count()` as a C++ `int`. -/
def QList.count (l : List Int) : Int := (l.length : Int)

/-- Source: `QList<int>::at(i)`; `none` when `i` is not a valid index. -/
def QList.at (l : List Int) (i : Int) : Option Int :=
  if 0 ≤ i ∧ i < QList.count l then l.get? i.toNat else none

/-- The private data of a sync profile (`class SyncProfilePrivate`). -/
structure SyncProfilePrivate where
  iLog : Option SyncLog
  iSchedule : SyncSchedule
  mSyncRetryIntervals : List Int
  mSyncRetryCount : Int

/-- Source: `SyncProfilePrivate::SyncProfilePrivate()`: no log, a default schedule,
retry counter 0 and the implicit zero delay appended to the empty list. -/
def SyncProfilePrivate.new (c : Collaborators) : SyncProfilePrivate :=
  { iLog := none
    iSchedule := c.defaultSchedule
    mSyncRetryIntervals := [] ++ [0]
    mSyncRetryCount := 0 }

/-- Source: `SyncProfilePrivate::SyncProfilePrivate(const SyncProfilePrivate &)`. The
member initialiser list names `iLog` and `iSchedule` only, so
`mSyncRetryIntervals` is default-constructed (the empty list) and the `int`
member `mSyncRetryCount` is left uninitialised: its value is the argument
`indeterminate`. The log, when present, is copied. -/
def SyncProfilePrivate.copy (aSource : SyncProfilePrivate) (indeterminate : Int) :
    SyncProfilePrivate :=
  { iLog := match aSource.iLog with
      | some l => some { profileName := l.profileName, results := l.results }
      | none => none
    iSchedule := aSource.iSchedule
    mSyncRetryIntervals := []
    mSyncRetryCount := indeterminate }

/-- A sync profile: the `Profile` base-class part and the private data. -/
structure SyncProfile where
  base : Profile
  d_ptr : SyncProfilePrivate

/-- The two sync types. -/
inductive SyncType where
  | SYNC_MANUAL : SyncType
  | SYNC_SCHEDULED : SyncType
deriving DecidableEq, Repr

namespace SyncProfile

/-- Source: `SyncProfile::SyncProfile(const QString &aName)`. -/
def new (defs : ProfileEngineDefs) (c : Collaborators) (aName : String) : SyncProfile :=
  { base := { name := aName, type := defs.TYPE_SYNC, keys := [], subProfiles := [] }
    d_ptr := SyncProfilePrivate.new c }

/-- The `while` loop of `SyncProfile::SyncProfile(const QDomElement &)`. The
cursor `timeElement` runs through the children of the retry element by
`firstChildElement(TAG_ATTEMPT_DELAY)` / `nextSiblingElement(TAG_ATTEMPT_DELAY)`:
the loop is a pass over the child nodes in document order that skips every
node that is not an element with that tag. -/
def retryLoop (defs : ProfileEngineDefs) : List QDomNode → List Int → List Int
  | [], intervals => intervals
  | timeElement :: siblings, intervals =>
    if timeElement.isElementNamed defs.TAG_ATTEMPT_DELAY then
      match QString.toInt (timeElement.attributeValue defs.ATTR_VALUE "-1") with
      | some parsedTime =>
        if parsedTime > 0 then retryLoop defs siblings (intervals ++ [parsedTime])
        else retryLoop defs siblings intervals
      | none => retryLoop defs siblings intervals
    else retryLoop defs siblings intervals

/-- Source: `SyncProfile::SyncProfile(const QDomElement &aRoot)`. -/
def fromXml (defs : ProfileEngineDefs) (c : Collaborators) (aRoot : QDomNode) : SyncProfile :=
  let d := SyncProfilePrivate.new c
  let schedule := aRoot.firstChildElement defs.TAG_SCHEDULE
  let d := if !schedule.isNull then { d with iSchedule := c.scheduleOfXml schedule } else d
  let retriesElement := aRoot.firstChildElement defs.TAG_ERROR_ATTEMPTS
  let d :=
    if !retriesElement.isNull then
      { d with mSyncRetryIntervals :=
          retryLoop defs retriesElement.childNodes d.mSyncRetryIntervals }
    else d
  { base := c.profileOfXml aRoot, d_ptr := d }

/-- Source: `SyncProfile::SyncProfile(const SyncProfile &aSource)`; the base class is
copied as a value, the private data by `SyncProfilePrivate.copy`. -/
def copy (aSource : SyncProfile) (indeterminate : Int) : SyncProfile :=
  { base := aSource.base, d_ptr := aSource.d_ptr.copy indeterminate }

/-- Source: `SyncProfile::clone`. -/
def clone (p : SyncProfile) (indeterminate : Int) : SyncProfile := p.copy indeterminate

/-- The element that `toXml` creates for one retry interval. -/
def retryIntervalElement (defs : ProfileEngineDefs) (v : Int) : QDomNode :=
  QDomNode.element defs.TAG_ATTEMPT_DELAY [(defs.ATTR_VALUE, QString.number v)] []

/-- The `for` loop of `SyncProfile::toXml`: for `i = 1 .. count - 1` a child
with the value `at(i)` is appended to `retries`. -/
def toXmlLoop (defs : ProfileEngineDefs) (intervals : List Int) (retries : QDomNode) :
    Option QDomNode :=
  (List.range' 1 (intervals.length - 1)).foldlM
    (fun (r : QDomNode) (i : Nat) => (QList.at intervals (Int.ofNat i)).map
      (fun v => r.appendChild (retryIntervalElement defs v)))
    retries

/-- Source: `SyncProfile::toXml(aDoc, aLocalOnly)`. -/
def toXml (defs : ProfileEngineDefs) (c : Collaborators) (p : SyncProfile) (aLocalOnly : Bool) :
    Option QDomNode :=
  let root := c.profileToXml p.base aLocalOnly
  let schedule := p.d_ptr.iSchedule.toXml
  let root := if !schedule.isNull then root.appendChild schedule else root
  if QList.count p.d_ptr.mSyncRetryIntervals > 1 then
    (toXmlLoop defs p.d_ptr.mSyncRetryIntervals
      (QDomNode.element defs.TAG_ERROR_ATTEMPTS [] [])).map
      (fun retries => root.appendChild retries)
  else some root

/-- Source: `SyncProfile::lastSyncTime`. -/
def lastSyncTime (p : SyncProfile) : QDateTime :=
  match p.d_ptr.iLog with
  | some log =>
    match log.lastResults with
    | some r => r.syncTime
    | none => QDateTime.null
  | none => QDateTime.null

/-- Source: `SyncProfile::syncType`. -/
def syncType (defs : ProfileEngineDefs) (p : SyncProfile) : SyncType :=
  if p.base.boolKey defs defs.KEY_SYNC_SCHEDULED then SyncType.SYNC_SCHEDULED
  else SyncType.SYNC_MANUAL

/-- Source: `SyncProfile::nextSyncTime`; `now` is the value of
`QDateTime::currentDateTime()`. The product `at(count) * 60` is an `int`
product. The outer `none` is a failed list access. -/
def nextSyncTime (defs : ProfileEngineDefs) (p : SyncProfile) (now : Int) : Option QDateTime :=
  if syncType defs p = SyncType.SYNC_SCHEDULED ∧ p.d_ptr.mSyncRetryCount = 0 then
    some (p.d_ptr.iSchedule.nextSyncTime (lastSyncTime p))
  else if QList.count p.d_ptr.mSyncRetryIntervals > 0 ∧ p.d_ptr.mSyncRetryCount > 0 ∧
      p.d_ptr.mSyncRetryCount < QList.count p.d_ptr.mSyncRetryIntervals then
    (QList.at p.d_ptr.mSyncRetryIntervals p.d_ptr.mSyncRetryCount).map
      (fun delay => (QDateTime.secs now).addSecs (wrapInt32 (delay * 60)))
  else some QDateTime.null

/-- Source: `SyncProfile::storageBackendNames`. The outer `none` is the dereference of
a null pointer returned by `subProfile`. -/
def storageBackendNames (defs : ProfileEngineDefs) (p : SyncProfile) : Option (List String) :=
  (p.base.subProfileNames defs.TYPE_STORAGE).foldlM
    (fun enabledStorageBackends storage =>
      match p.base.subProfile storage defs.TYPE_STORAGE with
      | none => none
      | some sp =>
        if sp.isEnabled then
          some (enabledStorageBackends ++ [sp.key defs.KEY_BACKEND sp.name])
        else some enabledStorageBackends)
    []

/-- Source: `SyncProfile::syncRetryAttemptsCount`. -/
def syncRetryAttemptsCount (p : SyncProfile) : Int := QList.count p.d_ptr.mSyncRetryIntervals

/-- Source: `SyncProfile::syncCurrentAttempt`. -/
def syncCurrentAttempt (p : SyncProfile) : Int := p.d_ptr.mSyncRetryCount

/-- Source: `SyncProfile::syncRetryDelay`; the outer `none` is a failed list access. -/
def syncRetryDelay (p : SyncProfile) (aRetry : Int) : Option Int :=
  if aRetry ≥ 0 ∧ aRetry < QList.count p.d_ptr.mSyncRetryIntervals then
    QList.at p.d_ptr.mSyncRetryIntervals aRetry
  else some (-1)

/-- Source: `SyncProfile::setSyncRetryAttemp`. -/
def setSyncRetryAttemp (p : SyncProfile) (aRetry : Int) : SyncProfile :=
  { p with d_ptr := { p.d_ptr with mSyncRetryCount := aRetry } }

/-- Source: `SyncProfile::needNextAttempt`. -/
def needNextAttempt (p : SyncProfile) : Bool :=
  p.d_ptr.mSyncRetryCount < QList.count p.d_ptr.mSyncRetryIntervals

/-- Source: `SyncProfile::setNextAttempt`: `mSyncRetryCount++` on a 32-bit `int`. -/
def setNextAttempt (p : SyncProfile) : SyncProfile :=
  { p with d_ptr := { p.d_ptr with mSyncRetryCount := wrapInt32 (p.d_ptr.mSyncRetryCount + 1) } }

/-- Source: `SyncProfile::resetAttempts`. -/
def resetAttempts (p : SyncProfile) : SyncProfile :=
  { p with d_ptr := { p.d_ptr with mSyncRetryCount := 0 } }

end SyncProfile

/-! ## The specified behaviour, stated independently of the code -/

/-- Specification: the persisted attempt-delay entries of a document, i.e. the
child elements with the attempt-delay tag under the retry-attempts element of
the root, in document order. -/
def attemptDelayEntries (defs : ProfileEngineDefs) (aRoot : QDomNode) : List QDomNode :=
  (aRoot.firstChildElement defs.TAG_ERROR_ATTEMPTS).childNodes.filter
    (fun n => n.isElementNamed defs.TAG_ATTEMPT_DELAY)

/-- Specification: the delay an entry contributes. An entry without the value
attribute, with a value that does not parse as an integer, or with a value
that is zero or negative contributes nothing. -/
def acceptedDelay (defs : ProfileEngineDefs) (entry : QDomNode) : Option Int :=
  match entry with
  | QDomNode.element _ attrs _ =>
    match QDomNode.lookupAttr defs.ATTR_VALUE attrs with
    | none => none
    | some s =>
      match QString.toInt s with
      | none => none
      | some v => if 0 < v then some v else none
  | _ => none

/-- Specification: the delay list of a loaded profile, the implicit `0`
followed by the accepted delays in document order. -/
def specDelayList (defs : ProfileEngineDefs) (aRoot : QDomNode) : List Int :=
  0 :: (attemptDelayEntries defs aRoot).filterMap (acceptedDelay defs)

/-- Specification: the enabled backend names, one entry per enabled storage
sub-profile in enumeration order, the backend key value or else the name of
the sub-profile. -/
def specBackendNames (defs : ProfileEngineDefs) (p : Profile) : List String :=
  (p.subProfiles.filter (fun s => s.type == defs.TYPE_STORAGE && s.enabled)).map
    (fun s => (lookupKey defs.KEY_BACKEND s.keys).getD s.name)

/-- The state after `m` successive calls of `setNextAttempt`. -/
def setNextAttemptTimes : Nat → SyncProfile → SyncProfile
  | 0, p => p
  | m + 1, p => setNextAttemptTimes m p.setNextAttempt

/-! ## Concrete constants, collaborators and profiles used in examples -/

/-- A concrete choice of the string constants. -/
def exDefs : ProfileEngineDefs :=
  { TAG_SCHEDULE := "schedule"
    TAG_ERROR_ATTEMPTS := "errorattempts"
    TAG_ATTEMPT_DELAY := "attemptdelay"
    ATTR_VALUE := "value"
    KEY_SYNC_SCHEDULED := "scheduled"
    KEY_BACKEND := "backend"
    KEY_DESTINATION_TYPE := "destinationtype"
    KEY_SYNC_DIRECTION := "Sync Direction"
    KEY_SOC_AFTER := "syncOnChangeAfter"
    KEY_CONFLICT_RESOLUTION_POLICY := "conflictpolicy"
    VALUE_ONLINE := "online"
    VALUE_DEVICE := "device"
    VALUE_TWO_WAY := "two-way"
    VALUE_FROM_REMOTE := "from-remote"
    VALUE_TO_REMOTE := "to-remote"
    VALUE_PREFER_REMOTE := "prefer remote"
    VALUE_PREFER_LOCAL := "prefer local"
    BOOLEAN_TRUE := "true"
    TYPE_SYNC := "sync"
    TYPE_STORAGE := "storage"
    TYPE_SERVICE := "service"
    TYPE_CLIENT := "client"
    TYPE_SERVER := "server" }

/-- A periodic schedule that always answers one hour after time 0 and is
serialised as an empty schedule element. -/
def exSchedule : SyncSchedule :=
  { nextSyncTime := fun _ => QDateTime.secs 3600
    toXml := QDomNode.element "schedule" [] [] }

/-- A concrete choice of the collaborators: the base class is serialised as
a profile element carrying its name and type. -/
def exCollab : Collaborators :=
  { profileOfXml := fun n =>
      { name := n.attributeValue "name" "", type := n.attributeValue "type" "",
        keys := [], subProfiles := [] }
    profileToXml := fun p _ =>
      QDomNode.element "profile" [("name", p.name), ("type", p.type)] []
    scheduleOfXml := fun _ => exSchedule
    defaultSchedule := exSchedule }

/-- A profile state with the given sync-scheduled key, delay list and attempt
counter, no log and the example schedule. -/
def exProfile (scheduled : Bool) (delays : List Int) (attempt : Int) : SyncProfile :=
  { base := { name := "p", type := "sync",
              keys := if scheduled then [("scheduled", "true")] else [],
              subProfiles := [] }
    d_ptr := { iLog := none, iSchedule := exSchedule,
               mSyncRetryIntervals := delays, mSyncRetryCount := attempt } }

/-- A document with a retry section holding the given attribute lists, one
per attempt-delay entry. -/
def exDocument (entries : List (List (String × String))) : QDomNode :=
  QDomNode.element "profile" [("name", "p"), ("type", "sync")]
    [QDomNode.element "schedule" [] [],
     QDomNode.element "errorattempts" []
       (entries.map (fun attrs => QDomNode.element "attemptdelay" attrs []))]

/-- A storage sub-profile with the given name, enabled flag and keys. -/
def exStorage (name : String) (enabled : Bool) (keys : List (String × String)) : SubProfile :=
  { name := name, type := "storage", keys := keys, enabled := enabled }

/-- A profile with the given sub-profiles and default private data. -/
def exProfileWith (subs : List SubProfile) : SyncProfile :=
  { base := { name := "p", type := "sync", keys := [], subProfiles := subs }
    d_ptr := SyncProfilePrivate.new exCollab }

/-! ## Typed settings resolved from the sub-profiles -/

/-- Model of `QString::toUInt(&ok)` in base 10: surrounding whitespace is
ignored, an optional plus sign is followed by at least one decimal digit, a
minus sign is rejected, and the value has to fit an unsigned 32-bit integer;
`none` stands for `ok == false`. -/
def QString.toUInt (s : String) : Option Nat :=
  match trimSpaces s.data with
  | [] => none
  | c :: cs =>
    if c = '-' then none
    else if c = '+' then
      match parseDigits cs with
      | none => none
      | some n => if n ≤ 4294967295 then some n else none
    else
      match parseDigits (c :: cs) with
      | none => none
      | some n => if n ≤ 4294967295 then some n else none

/-- Model of `QString::isEmpty`. -/
def QString.isEmpty (s : String) : Bool := s.data.isEmpty

/-- Conversion of an `int` value to `quint32` (reduction modulo `2^32`). -/
def quint32OfInt (x : Int) : Nat := (x % 4294967296).toNat

/-- Modelled from the spec: `Profile::allSubProfiles() -> ordered sequence of
sub-profile`, the flattened sub-profile list in enumeration order. -/
def Profile.allSubProfiles (p : Profile) : List SubProfile := p.subProfiles

/-- Modelled from the spec: `Profile::setKey(name, value)` on a sub-profile.
The key gets the value; a null value (`none`) deletes the key, as the comments
in `setSyncDirection` and `setConflictResolutionPolicy` say. -/
def SubProfile.setKey (p : SubProfile) (aName : String) (aValue : Option String) : SubProfile :=
  match aValue with
  | none => { p with keys := p.keys.filter (fun kv => !(kv.1 == aName)) }
  | some v => { p with keys := (aName, v) :: p.keys.filter (fun kv => !(kv.1 == aName)) }

/-- Modelled from the spec: `SyncLog::setProfileName`. -/
def SyncLog.setProfileName (l : SyncLog) (aName : String) : SyncLog :=
  { l with profileName := aName }

/-- The effect of `p->member(...)` on the first sub-profile that satisfies
`isTarget`, i.e. on the object that the non-const lookups `clientProfile()`
etc. point to; the list is unchanged when there is no such sub-profile. -/
def modifyFirst (isTarget : SubProfile → Bool) (f : SubProfile → SubProfile) :
    List SubProfile → List SubProfile
  | [] => []
  | s :: rest => if isTarget s then f s :: rest else s :: modifyFirst isTarget f rest

/-- The setters of the `Profile` base class that the setters of `SyncProfile`
call and that `SyncProfile.cpp` does not define; they act on the base-class
part of the profile. -/
structure ProfileSetters where
  /-- Source: `Profile::setName(const QString &)`. -/
  setName : Profile → String → Profile
  /-- Source: `Profile::setName(const QStringList &)`. -/
  setNameFromKeys : Profile → List String → Profile
  /-- Source: `Profile::setBoolKey(name, value)`. -/
  setBoolKey : Profile → String → Bool → Profile

/-- The sync directions (`SyncProfile::SyncDirection`). -/
inductive SyncDirection where
  | SYNC_DIRECTION_TWO_WAY : SyncDirection
  | SYNC_DIRECTION_FROM_REMOTE : SyncDirection
  | SYNC_DIRECTION_TO_REMOTE : SyncDirection
  | SYNC_DIRECTION_UNDEFINED : SyncDirection
deriving DecidableEq, Repr

/-- The conflict resolution policies (`SyncProfile::ConflictResolutionPolicy`). -/
inductive ConflictResolutionPolicy where
  | CR_POLICY_PREFER_LOCAL_CHANGES : ConflictResolutionPolicy
  | CR_POLICY_PREFER_REMOTE_CHANGES : ConflictResolutionPolicy
  | CR_POLICY_UNDEFINED : ConflictResolutionPolicy
deriving DecidableEq, Repr

/-- The destination types (`SyncProfile::DestinationType`). -/
inductive DestinationType where
  | DESTINATION_TYPE_DEVICE : DestinationType
  | DESTINATION_TYPE_ONLINE : DestinationType
  | DESTINATION_TYPE_UNDEFINED : DestinationType
deriving DecidableEq, Repr

namespace SyncProfile

/-- Source: `SyncProfile::serviceProfile`, the first sub-profile of type service, or
a null pointer. -/
def serviceProfile (defs : ProfileEngineDefs) (p : SyncProfile) : Option SubProfile :=
  p.base.allSubProfiles.find? (fun s => s.type == defs.TYPE_SERVICE)

/-- Source: `SyncProfile::clientProfile`, the first sub-profile of type client, or a
null pointer. -/
def clientProfile (defs : ProfileEngineDefs) (p : SyncProfile) : Option SubProfile :=
  p.base.allSubProfiles.find? (fun s => s.type == defs.TYPE_CLIENT)

/-- Source: `SyncProfile::destinationType`. -/
def destinationType (defs : ProfileEngineDefs) (p : SyncProfile) : DestinationType :=
  let typeStr : String :=
    match serviceProfile defs p with
    | some service => service.key defs.KEY_DESTINATION_TYPE ""
    | none => ""
  if typeStr == defs.VALUE_ONLINE then DestinationType.DESTINATION_TYPE_ONLINE
  else if typeStr == defs.VALUE_DEVICE then DestinationType.DESTINATION_TYPE_DEVICE
  else DestinationType.DESTINATION_TYPE_UNDEFINED

/-- Source: `SyncProfile::syncDirection`. -/
def syncDirection (defs : ProfileEngineDefs) (p : SyncProfile) : SyncDirection :=
  let dirStr : String :=
    match clientProfile defs p with
    | some client => client.key defs.KEY_SYNC_DIRECTION ""
    | none => ""
  if dirStr == defs.VALUE_TWO_WAY then SyncDirection.SYNC_DIRECTION_TWO_WAY
  else if dirStr == defs.VALUE_FROM_REMOTE then SyncDirection.SYNC_DIRECTION_FROM_REMOTE
  else if dirStr == defs.VALUE_TO_REMOTE then SyncDirection.SYNC_DIRECTION_TO_REMOTE
  else SyncDirection.SYNC_DIRECTION_UNDEFINED

/-- Source: `SyncProfile::syncOnChangeAfter`; the result is a `quint32`. -/
def syncOnChangeAfter (defs : ProfileEngineDefs) (p : SyncProfile) : Nat :=
  let syncOnChangeAfterTime : Nat := quint32OfInt (-1)
  match clientProfile defs p with
  | some client =>
    let time := client.key defs.KEY_SOC_AFTER ""
    if !QString.isEmpty time then
      match QString.toUInt time with
      | some v => v
      | none => quint32OfInt (-1)
    else syncOnChangeAfterTime
  | none => syncOnChangeAfterTime

/-- Source: `SyncProfile::setSyncDirection`. Without a client sub-profile two
warnings are logged and nothing is written. -/
def setSyncDirection (defs : ProfileEngineDefs) (p : SyncProfile) (aDirection : SyncDirection) :
    SyncProfile :=
  let dirStr : Option String :=
    match aDirection with
    | SyncDirection.SYNC_DIRECTION_TWO_WAY => some defs.VALUE_TWO_WAY
    | SyncDirection.SYNC_DIRECTION_FROM_REMOTE => some defs.VALUE_FROM_REMOTE
    | SyncDirection.SYNC_DIRECTION_TO_REMOTE => some defs.VALUE_TO_REMOTE
    | SyncDirection.SYNC_DIRECTION_UNDEFINED => none
  match clientProfile defs p with
  | some _ =>
    let subs := modifyFirst (fun s => s.type == defs.TYPE_CLIENT)
      (fun client => client.setKey defs.KEY_SYNC_DIRECTION dirStr) p.base.subProfiles
    { p with base := { p.base with subProfiles := subs } }
  | none => p

/-- Source: `SyncProfile::conflictResolutionPolicy`. -/
def conflictResolutionPolicy (defs : ProfileEngineDefs) (p : SyncProfile) :
    ConflictResolutionPolicy :=
  let policyStr : String :=
    match clientProfile defs p with
    | some client => client.key defs.KEY_CONFLICT_RESOLUTION_POLICY ""
    | none => ""
  if policyStr == defs.VALUE_PREFER_REMOTE then
    ConflictResolutionPolicy.CR_POLICY_PREFER_REMOTE_CHANGES
  else if policyStr == defs.VALUE_PREFER_LOCAL then
    ConflictResolutionPolicy.CR_POLICY_PREFER_LOCAL_CHANGES
  else ConflictResolutionPolicy.CR_POLICY_UNDEFINED

/-- Source: `SyncProfile::setConflictResolutionPolicy`. Without a client sub-profile
two warnings are logged and nothing is written. -/
def setConflictResolutionPolicy (defs : ProfileEngineDefs) (p : SyncProfile)
    (aPolicy : ConflictResolutionPolicy) : SyncProfile :=
  let policyStr : Option String :=
    match aPolicy with
    | ConflictResolutionPolicy.CR_POLICY_PREFER_REMOTE_CHANGES => some defs.VALUE_PREFER_REMOTE
    | ConflictResolutionPolicy.CR_POLICY_PREFER_LOCAL_CHANGES => some defs.VALUE_PREFER_LOCAL
    | ConflictResolutionPolicy.CR_POLICY_UNDEFINED => none
  match clientProfile defs p with
  | some _ =>
    let subs := modifyFirst (fun s => s.type == defs.TYPE_CLIENT)
      (fun client => client.setKey defs.KEY_CONFLICT_RESOLUTION_POLICY policyStr)
      p.base.subProfiles
    { p with base := { p.base with subProfiles := subs } }
  | none => p

/-- Source: `SyncProfile::setName(const QString &)`. -/
def setName (bs : ProfileSetters) (p : SyncProfile) (aName : String) : SyncProfile :=
  { base := bs.setName p.base aName
    d_ptr := { p.d_ptr with
      iLog := match p.d_ptr.iLog with
        | some log => some (log.setProfileName aName)
        | none => none } }

/-- Source: `SyncProfile::setName(const QStringList &)`. -/
def setNameFromKeys (bs : ProfileSetters) (p : SyncProfile) (aKeys : List String) : SyncProfile :=
  { base := bs.setNameFromKeys p.base aKeys
    d_ptr := { p.d_ptr with
      iLog := match p.d_ptr.iLog with
        | some log => some (log.setProfileName (bs.setNameFromKeys p.base aKeys).name)
        | none => none } }

/-- Source: `SyncProfile::setLog`. -/
def setLog (p : SyncProfile) (aLog : Option SyncLog) : SyncProfile :=
  { p with d_ptr := { p.d_ptr with iLog := aLog } }

/-- Source: `SyncProfile::addResults`; a missing log is created with the name of the
profile first. -/
def addResults (p : SyncProfile) (aResults : SyncResults) : SyncProfile :=
  { p with d_ptr := { p.d_ptr with
      iLog := match p.d_ptr.iLog with
        | some log => some (log.addResults aResults)
        | none => some (SyncLog.addResults { profileName := p.base.name, results := [] }
            aResults) } }

/-- Source: `SyncProfile::setSyncType`. -/
def setSyncType (defs : ProfileEngineDefs) (bs : ProfileSetters) (p : SyncProfile)
    (aType : SyncType) : SyncProfile :=
  let base := bs.setBoolKey p.base defs.KEY_SYNC_SCHEDULED
    (decide (aType = SyncType.SYNC_SCHEDULED))
  { p with base := base }

/-- Source: `SyncProfile::setSyncSchedule`. -/
def setSyncSchedule (p : SyncProfile) (aSchedule : SyncSchedule) : SyncProfile :=
  { p with d_ptr := { p.d_ptr with iSchedule := aSchedule } }

/-- The argument of `addSecs` in the retry branch of `nextSyncTime`, the `int`
product `mSyncRetryIntervals.at(mSyncRetryCount) * 60`. -/
def retryOffsetSecs (p : SyncProfile) : Option Int :=
  (QList.at p.d_ptr.mSyncRetryIntervals p.d_ptr.mSyncRetryCount).map
    (fun delay => wrapInt32 (delay * 60))

end SyncProfile

/-! ## Operations on a profile and reachable states -/

/-- The three operations of the retry state machine. -/
inductive RetryOp where
  | setNextAttempt : RetryOp
  | resetAttempts : RetryOp
  | setSyncRetryAttemp : Int → RetryOp
deriving DecidableEq, Repr

/-- The effect of a retry operation. -/
def RetryOp.apply (op : RetryOp) (p : SyncProfile) : SyncProfile :=
  match op with
  | RetryOp.setNextAttempt => p.setNextAttempt
  | RetryOp.resetAttempts => p.resetAttempts
  | RetryOp.setSyncRetryAttemp aRetry => p.setSyncRetryAttemp aRetry

/-- The state after a sequence of retry operations, first operation first. -/
def runRetryOps : List RetryOp → SyncProfile → SyncProfile
  | [], p => p
  | op :: rest, p => runRetryOps rest (op.apply p)

/-- The caller's discipline for one retry operation: `setNextAttempt` is called
only while `needNextAttempt()` is true and `setSyncRetryAttemp` only with an
attempt number between 0 and the number of delays. -/
def RetryOp.allowed (op : RetryOp) (p : SyncProfile) : Bool :=
  match op with
  | RetryOp.setNextAttempt => p.needNextAttempt
  | RetryOp.resetAttempts => true
  | RetryOp.setSyncRetryAttemp aRetry =>
    decide (0 ≤ aRetry ∧ aRetry ≤ p.syncRetryAttemptsCount)

/-- A sequence of retry operations in which every operation respects the
caller's discipline in the state in which it is called. -/
def disciplined : List RetryOp → SyncProfile → Bool
  | [], _ => true
  | op :: rest, p => op.allowed p && disciplined rest (op.apply p)

/-- The mutating member functions of `SyncProfile`: the retry operations and
the setters. -/
inductive Op where
  | retry : RetryOp → Op
  | setName : String → Op
  | setNameFromKeys : List String → Op
  | setLog : Option SyncLog → Op
  | addResults : SyncResults → Op
  | setSyncType : SyncType → Op
  | setSyncSchedule : SyncSchedule → Op
  | setSyncDirection : SyncDirection → Op
  | setConflictResolutionPolicy : ConflictResolutionPolicy → Op

/-- The effect of a mutating member function. -/
def Op.apply (defs : ProfileEngineDefs) (bs : ProfileSetters) (op : Op) (p : SyncProfile) :
    SyncProfile :=
  match op with
  | Op.retry r => r.apply p
  | Op.setName aName => p.setName bs aName
  | Op.setNameFromKeys aKeys => p.setNameFromKeys bs aKeys
  | Op.setLog aLog => p.setLog aLog
  | Op.addResults aResults => p.addResults aResults
  | Op.setSyncType aType => p.setSyncType defs bs aType
  | Op.setSyncSchedule aSchedule => p.setSyncSchedule aSchedule
  | Op.setSyncDirection aDirection => p.setSyncDirection defs aDirection
  | Op.setConflictResolutionPolicy aPolicy => p.setConflictResolutionPolicy defs aPolicy

/-- The state after a sequence of mutating member functions. -/
def runOps (defs : ProfileEngineDefs) (bs : ProfileSetters) : List Op → SyncProfile → SyncProfile
  | [], p => p
  | op :: rest, p => runOps defs bs rest (op.apply defs bs p)

/-- The delay-list invariant: at least one element, element 0 is 0 and every
later element is strictly positive. -/
def delayListInvariant (l : List Int) : Prop :=
  1 ≤ l.length ∧ l.head? = some 0 ∧ ∀ v ∈ l.tail, 0 < v

/-- The value of a key on the backing sub-profile: `none` when the sub-profile
is absent or the key is missing. -/
def backingValue (sub : Option SubProfile) (aName : String) : Option String :=
  match sub with
  | some s => lookupKey aName s.keys
  | none => none

/-- The table strings of the three enumerations are not empty. -/
def tableStringsNonEmpty (defs : ProfileEngineDefs) : Prop :=
  defs.VALUE_TWO_WAY ≠ "" ∧ defs.VALUE_FROM_REMOTE ≠ "" ∧ defs.VALUE_TO_REMOTE ≠ "" ∧
  defs.VALUE_PREFER_REMOTE ≠ "" ∧ defs.VALUE_PREFER_LOCAL ≠ "" ∧
  defs.VALUE_ONLINE ≠ "" ∧ defs.VALUE_DEVICE ≠ ""

/-- The table strings of the sync directions are pairwise different, and so
are those of the conflict resolution policies. -/
def tableStringsDistinct (defs : ProfileEngineDefs) : Prop :=
  defs.VALUE_TWO_WAY ≠ defs.VALUE_FROM_REMOTE ∧ defs.VALUE_TWO_WAY ≠ defs.VALUE_TO_REMOTE ∧
  defs.VALUE_FROM_REMOTE ≠ defs.VALUE_TO_REMOTE ∧
  defs.VALUE_PREFER_REMOTE ≠ defs.VALUE_PREFER_LOCAL

/-- Specification: the retry section of a saved profile, absent for at most
one delay, else one retry-attempts element with one attempt-delay child per
delay after the first, in order. -/
def specRetrySection (defs : ProfileEngineDefs) (delays : List Int) : Option QDomNode :=
  if delays.length ≤ 1 then none
  else some (QDomNode.element defs.TAG_ERROR_ATTEMPTS []
    (delays.tail.map (fun v =>
      QDomNode.element defs.TAG_ATTEMPT_DELAY [(defs.ATTR_VALUE, QString.number v)] [])))

/-- The base-class element with the schedule element appended, the part of the
saved document that precedes the retry section. -/
def rootWithSchedule (c : Collaborators) (p : SyncProfile) (aLocalOnly : Bool) : QDomNode :=
  if !p.d_ptr.iSchedule.toXml.isNull then
    (c.profileToXml p.base aLocalOnly).appendChild p.d_ptr.iSchedule.toXml
  else c.profileToXml p.base aLocalOnly

/-- A concrete choice of the base-class setters. -/
def exSetters : ProfileSetters :=
  { setName := fun p aName => { p with name := aName }
    setNameFromKeys := fun p aKeys => { p with name := String.join aKeys }
    setBoolKey := fun p aName aValue =>
      { p with keys := (aName, if aValue then "true" else "false") ::
          p.keys.filter (fun kv => !(kv.1 == aName)) } }

/-- A sub-profile of type client with the given keys. -/
def exClient (keys : List (String × String)) : SubProfile :=
  { name := "syncml", type := "client", keys := keys, enabled := true }

/-- A sub-profile of type service with the given keys. -/
def exService (keys : List (String × String)) : SubProfile :=
  { name := "ovi", type := "service", keys := keys, enabled := true }

/-! ## Lemmas on the number conversions -/

theorem digitValue_digitChar (d : Nat) (h : d < 10) : digitValue (digitChar d) = some d := by
  interval_cases d <;> decide

theorem isSpace_digitChar (d : Nat) : isSpace (digitChar d) = false := by
  unfold digitChar
  split <;> decide

theorem digitChar_ne_minus (d : Nat) : digitChar d ≠ '-' := by
  unfold digitChar
  split <;> decide

theorem digitChar_ne_plus (d : Nat) : digitChar d ≠ '+' := by
  unfold digitChar
  split <;> decide

theorem parseDigitsAux_append (l : List Char) (c : Char) (acc : Nat) :
    parseDigitsAux (l ++ [c]) acc =
      (parseDigitsAux l acc).bind (fun a => (digitValue c).map (fun d => 10 * a + d)) := by
  induction l generalizing acc with
  | nil =>
    simp only [List.nil_append, parseDigitsAux, Option.some_bind]
    cases digitValue c <;> simp [parseDigitsAux]
  | cons x xs ih =>
    simp only [List.cons_append, parseDigitsAux]
    cases digitValue x with
    | none => simp
    | some d => simpa using ih (10 * acc + d)

theorem parseDigitsAux_natDigitsAux (fuel : Nat) :
    ∀ n : Nat, n < fuel → parseDigitsAux (natDigitsAux fuel n) 0 = some n := by
  induction fuel with
  | zero => intro n h; omega
  | succ f ih =>
    intro n h
    unfold natDigitsAux
    by_cases h10 : n < 10
    · simp [h10, parseDigitsAux, digitValue_digitChar n h10]
    · simp only [h10, if_false]
      have hlt : n / 10 < f := by omega
      rw [parseDigitsAux_append, ih (n / 10) hlt,
        digitValue_digitChar (n % 10) (Nat.mod_lt _ (by decide))]
      simp only [Option.some_bind, Option.map_some']
      congr 1
      omega

theorem natDigitsAux_all_digits (fuel : Nat) :
    ∀ n : Nat, ∀ c ∈ natDigitsAux fuel n, ∃ d : Nat, c = digitChar d := by
  induction fuel with
  | zero => intro n c hc; simp [natDigitsAux] at hc
  | succ f ih =>
    intro n c hc
    unfold natDigitsAux at hc
    by_cases h10 : n < 10
    · simp only [h10, if_true, List.mem_singleton] at hc
      exact ⟨n, hc⟩
    · simp only [h10, if_false, List.mem_append, List.mem_singleton] at hc
      rcases hc with hc | hc
      · exact ih (n / 10) c hc
      · exact ⟨n % 10, hc⟩

theorem natDigitsAux_ne_nil (fuel n : Nat) : natDigitsAux (fuel + 1) n ≠ [] := by
  unfold natDigitsAux
  by_cases h10 : n < 10 <;> simp [h10]

theorem dropWhile_isSpace_of_none (l : List Char) (h : ∀ c ∈ l, isSpace c = false) :
    l.dropWhile isSpace = l := by
  cases l with
  | nil => rfl
  | cons x xs => simp [List.dropWhile, h x (List.mem_cons_self x xs)]

theorem trimSpaces_of_none (l : List Char) (h : ∀ c ∈ l, isSpace c = false) :
    trimSpaces l = l := by
  unfold trimSpaces
  rw [dropWhile_isSpace_of_none l h, dropWhile_isSpace_of_none l.reverse, List.reverse_reverse]
  intro c hc
  exact h c (List.mem_reverse.mp hc)

/-- Round trip of the conversions: `QString::number` followed by `QString::toInt` gives back every positive
`int`. -/
theorem toInt_number (d : Int) (hpos : 0 < d) (hmax : d ≤ INT_MAX) :
    QString.toInt (QString.number d) = some d := by
  have hnot : ¬ d < 0 := by omega
  have hall := natDigitsAux_all_digits (d.natAbs + 1) d.natAbs
  have hsp : ∀ c ∈ natDigits d.natAbs, isSpace c = false := by
    intro c hc
    obtain ⟨k, hk⟩ := hall c hc
    rw [hk]; exact isSpace_digitChar k
  have hparse := parseDigitsAux_natDigitsAux (d.natAbs + 1) d.natAbs (Nat.lt_succ_self _)
  have hne := natDigitsAux_ne_nil d.natAbs d.natAbs
  unfold QString.toInt QString.number
  simp only [hnot, if_false]
  rw [trimSpaces_of_none _ hsp]
  unfold natDigits at *
  cases hds : natDigitsAux (d.natAbs + 1) d.natAbs with
  | nil => exact absurd hds hne
  | cons x xs =>
    rw [hds] at hparse hall
    obtain ⟨k, hk⟩ := hall x (List.mem_cons_self x xs)
    have h1 : x ≠ '-' := by rw [hk]; exact digitChar_ne_minus k
    have h2 : x ≠ '+' := by rw [hk]; exact digitChar_ne_plus k
    have habs : ((d.natAbs : Nat) : Int) = d := by omega
    simp only [h1, h2, if_false, parseDigits, hparse, habs, hmax, if_true]

/-! ## Loading the delay list -/

theorem toInt_default : QString.toInt "-1" = some (-1) := by decide

theorem retryLoop_eq_filterMap (defs : ProfileEngineDefs) (nodes : List QDomNode) :
    ∀ intervals : List Int,
      SyncProfile.retryLoop defs nodes intervals =
        intervals ++ (nodes.filter (fun n => n.isElementNamed defs.TAG_ATTEMPT_DELAY)).filterMap
          (acceptedDelay defs) := by
  induction nodes with
  | nil => intro intervals; simp [SyncProfile.retryLoop]
  | cons n rest ih =>
    intro intervals
    unfold SyncProfile.retryLoop
    by_cases hn : n.isElementNamed defs.TAG_ATTEMPT_DELAY = true
    · simp only [hn, if_true, List.filter_cons_of_pos]
      cases n with
      | null => simp [QDomNode.isElementNamed] at hn
      | text t => simp [QDomNode.isElementNamed] at hn
      | element t attrs cs =>
        simp only [QDomNode.attributeValue, acceptedDelay, List.filterMap_cons]
        cases hl : QDomNode.lookupAttr defs.ATTR_VALUE attrs with
        | none =>
          simp only [Option.getD_none, toInt_default]
          simpa using ih intervals
        | some v =>
          simp only [Option.getD_some]
          cases hp : QString.toInt v with
          | none => simpa using ih intervals
          | some x =>
            by_cases hx : 0 < x
            · have hx2 : x > 0 := hx
              simp only [hx, hx2, if_true]
              rw [ih]; simp
            · have hx2 : ¬ x > 0 := hx
              simp only [hx, hx2, if_false]
              exact ih intervals
    · have hn2 : n.isElementNamed defs.TAG_ATTEMPT_DELAY = false := by
        cases h : n.isElementNamed defs.TAG_ATTEMPT_DELAY
        · rfl
        · exact absurd h hn
      simp only [hn2, Bool.false_eq_true, if_false]
      rw [List.filter_cons_of_neg (by simp [hn2])]
      exact ih intervals

theorem childNodes_of_isNull (n : QDomNode) (h : n.isNull = true) : n.childNodes = [] := by
  cases n with
  | null => rfl
  | text t => simp [QDomNode.isNull] at h
  | element t attrs cs => simp [QDomNode.isNull] at h

theorem fromXml_intervals (defs : ProfileEngineDefs) (c : Collaborators) (aRoot : QDomNode) :
    (SyncProfile.fromXml defs c aRoot).d_ptr.mSyncRetryIntervals =
      SyncProfile.retryLoop defs (aRoot.firstChildElement defs.TAG_ERROR_ATTEMPTS).childNodes [0] := by
  unfold SyncProfile.fromXml
  simp only []
  by_cases h1 : (aRoot.firstChildElement defs.TAG_ERROR_ATTEMPTS).isNull = true
  · simp only [h1, Bool.not_true, Bool.false_eq_true, if_false, childNodes_of_isNull _ h1,
      SyncProfile.retryLoop]
    split_ifs <;> simp [SyncProfilePrivate.new]
  · have h2 : (aRoot.firstChildElement defs.TAG_ERROR_ATTEMPTS).isNull = false := by
      cases h : (aRoot.firstChildElement defs.TAG_ERROR_ATTEMPTS).isNull
      · rfl
      · exact absurd h h1
    simp only [h2, Bool.not_false, if_true]
    split_ifs <;> simp [SyncProfilePrivate.new]

theorem fromXml_count (defs : ProfileEngineDefs) (c : Collaborators) (aRoot : QDomNode) :
    (SyncProfile.fromXml defs c aRoot).d_ptr.mSyncRetryCount = 0 := by
  unfold SyncProfile.fromXml
  simp only []
  split_ifs <;> simp [SyncProfilePrivate.new]

theorem fromXml_intervals_spec (defs : ProfileEngineDefs) (c : Collaborators)
    (aRoot : QDomNode) :
    (SyncProfile.fromXml defs c aRoot).d_ptr.mSyncRetryIntervals = specDelayList defs aRoot := by
  rw [fromXml_intervals, retryLoop_eq_filterMap]
  simp [specDelayList, attemptDelayEntries]

theorem acceptedDelay_pos (defs : ProfileEngineDefs) (e : QDomNode) (v : Int)
    (he : acceptedDelay defs e = some v) : 0 < v := by
  unfold acceptedDelay at he
  split at he
  · split at he
    · simp at he
    · split at he
      · simp at he
      · split at he
        · simp only [Option.some.injEq] at he
          omega
        · simp at he
  · simp at he

theorem specDelayList_tail_pos (defs : ProfileEngineDefs) (aRoot : QDomNode) :
    ∀ v ∈ (specDelayList defs aRoot).tail, 0 < v := by
  intro v hv
  simp only [specDelayList, List.tail_cons, List.mem_filterMap] at hv
  obtain ⟨e, _, he⟩ := hv
  exact acceptedDelay_pos defs e v he

/-- C6. The delay list of a profile loaded from any document is `0` followed,
in document order, by exactly the attempt-delay entries of the retry-attempts
element whose value attribute parses as a strictly positive integer; a
document without retry-attempts element gives `[0]`, and entries without the
attribute, with an unparsable value or with a value that is not positive are
dropped. -/
theorem fromXml_delay_list (defs : ProfileEngineDefs) (c : Collaborators) (aRoot : QDomNode) :
    (SyncProfile.fromXml defs c aRoot).d_ptr.mSyncRetryIntervals = specDelayList defs aRoot ∧
    ((aRoot.firstChildElement defs.TAG_ERROR_ATTEMPTS).isNull = true →
      (SyncProfile.fromXml defs c aRoot).d_ptr.mSyncRetryIntervals = [0]) ∧
    (∀ v ∈ (SyncProfile.fromXml defs c aRoot).d_ptr.mSyncRetryIntervals.tail, 0 < v) := by
  have hmain := fromXml_intervals_spec defs c aRoot
  refine ⟨hmain, ?_, ?_⟩
  · intro hnull
    rw [hmain]
    simp [specDelayList, attemptDelayEntries, childNodes_of_isNull _ hnull]
  · rw [hmain]
    exact specDelayList_tail_pos defs aRoot

/-- Witness for C6: a document whose entries are `5`, a missing attribute,
`abc`, `0`, `-3` and `15` loads as `[0, 5, 15]`, and the root without a
retry section loads as `[0]`. -/
theorem fromXml_delay_list_witness :
    (SyncProfile.fromXml exDefs exCollab
        (exDocument [[("value", "5")], [], [("value", "abc")], [("value", "0")],
          [("value", "-3")], [("value", "15")]])).d_ptr.mSyncRetryIntervals = [0, 5, 15] ∧
    ((QDomNode.element "profile" [] []).firstChildElement exDefs.TAG_ERROR_ATTEMPTS).isNull = true ∧
    (SyncProfile.fromXml exDefs exCollab
        (QDomNode.element "profile" [] [])).d_ptr.mSyncRetryIntervals = [0] :=
  ⟨by decide, by decide,
    (fromXml_delay_list exDefs exCollab (QDomNode.element "profile" [] [])).2.1 (by decide)⟩

/-! ## Saving the delay list and loading it again -/

theorem QList_at_append (pre rest : List Int) (x : Int) :
    QList.at (pre ++ x :: rest) (Int.ofNat pre.length) = some x := by
  unfold QList.at QList.count
  have h : (0 : Int) ≤ Int.ofNat pre.length ∧
      Int.ofNat pre.length < ((pre ++ x :: rest).length : Int) := by
    constructor
    · simp
    · simp only [List.length_append, List.length_cons, Int.ofNat_eq_coe]; omega
  simp only [h, and_self, if_true]
  simp only [Int.ofNat_eq_coe, Int.toNat_ofNat]
  rw [List.get?_eq_getElem?, List.getElem?_append_right (le_refl _)]
  simp

theorem appendChild_element (t : String) (attrs : List (String × String))
    (cs : List QDomNode) (x : QDomNode) :
    (QDomNode.element t attrs cs).appendChild x = QDomNode.element t attrs (cs ++ [x]) := rfl

theorem toXml_fold (defs : ProfileEngineDefs) (t : String) (attrs : List (String × String))
    (rest : List Int) :
    ∀ (pre : List Int) (ch : List QDomNode),
      (List.range' pre.length rest.length).foldlM
        (fun (r : QDomNode) (i : Nat) => (QList.at (pre ++ rest) (Int.ofNat i)).map
          (fun v => QDomNode.appendChild r (SyncProfile.retryIntervalElement defs v)))
        (QDomNode.element t attrs ch) =
      some (QDomNode.element t attrs
        (ch ++ rest.map (SyncProfile.retryIntervalElement defs))) := by
  induction rest with
  | nil => intro pre ch; simp [List.range']
  | cons x xs ih =>
    intro pre ch
    simp only [List.length_cons, List.range', List.foldlM_cons, QList_at_append,
      Option.map_some', Option.bind_eq_bind, Option.some_bind, appendChild_element]
    have h := ih (pre ++ [x]) (ch ++ [SyncProfile.retryIntervalElement defs x])
    simp only [List.length_append, List.length_singleton, List.append_assoc,
      List.singleton_append] at h
    rw [h]
    simp

theorem toXmlLoop_eq (defs : ProfileEngineDefs) (ds : List Int) :
    SyncProfile.toXmlLoop defs (0 :: ds) (QDomNode.element defs.TAG_ERROR_ATTEMPTS [] []) =
      some (QDomNode.element defs.TAG_ERROR_ATTEMPTS []
        (ds.map (SyncProfile.retryIntervalElement defs))) := by
  unfold SyncProfile.toXmlLoop
  have h := toXml_fold defs defs.TAG_ERROR_ATTEMPTS [] ds [0] []
  simpa using h

theorem firstNamed_none (tag : String) (cs : List QDomNode)
    (h : ∀ n ∈ cs, n.isElementNamed tag = false) : QDomNode.firstNamed tag cs = QDomNode.null := by
  induction cs with
  | nil => rfl
  | cons x xs ih =>
    unfold QDomNode.firstNamed
    rw [h x (List.mem_cons_self x xs)]
    simp only [Bool.false_eq_true, if_false]
    exact ih (fun n hn => h n (List.mem_cons_of_mem x hn))

theorem firstNamed_append (tag : String) (cs : List QDomNode) (x : QDomNode)
    (h : ∀ n ∈ cs, n.isElementNamed tag = false) (hx : x.isElementNamed tag = true) :
    QDomNode.firstNamed tag (cs ++ [x]) = x := by
  induction cs with
  | nil => simp [QDomNode.firstNamed, hx]
  | cons y ys ih =>
    simp only [List.cons_append, QDomNode.firstNamed]
    rw [h y (List.mem_cons_self y ys)]
    simp only [Bool.false_eq_true, if_false]
    exact ih (fun n hn => h n (List.mem_cons_of_mem y hn))

theorem retryLoop_saved (defs : ProfileEngineDefs) (ds : List Int)
    (hds : ∀ d ∈ ds, 0 < d ∧ d ≤ INT_MAX) :
    ∀ intervals : List Int,
      SyncProfile.retryLoop defs (ds.map (SyncProfile.retryIntervalElement defs)) intervals =
        intervals ++ ds := by
  induction ds with
  | nil => intro intervals; simp [SyncProfile.retryLoop]
  | cons d rest ih =>
    intro intervals
    have hd := hds d (List.mem_cons_self d rest)
    have hgt : d > 0 := hd.1
    simp only [List.map_cons, SyncProfile.retryLoop, SyncProfile.retryIntervalElement,
      QDomNode.isElementNamed, beq_self_eq_true, if_true, QDomNode.attributeValue,
      QDomNode.lookupAttr, Option.getD_some, toInt_number d hd.1 hd.2, hgt]
    have h := ih (fun x hx => hds x (List.mem_cons_of_mem d hx)) (intervals ++ [d])
    simp only [SyncProfile.retryIntervalElement] at h
    rw [h]
    simp

theorem root_with_schedule (tag t : String) (attrs : List (String × String))
    (cs : List QDomNode) (schedule : QDomNode)
    (hcs : ∀ n ∈ cs, n.isElementNamed tag = false)
    (hsched : schedule.isElementNamed tag = false) :
    ∃ cs1, (if (!schedule.isNull) = true then (QDomNode.element t attrs cs).appendChild schedule
            else QDomNode.element t attrs cs) = QDomNode.element t attrs cs1 ∧
      ∀ n ∈ cs1, n.isElementNamed tag = false := by
  by_cases h : (!schedule.isNull) = true
  · refine ⟨cs ++ [schedule], by simp [h, QDomNode.appendChild], ?_⟩
    intro n hn
    rcases List.mem_append.mp hn with hn | hn
    · exact hcs n hn
    · rw [List.mem_singleton.mp hn]; exact hsched
  · exact ⟨cs, by simp [h], hcs⟩

/-- C1. Retry-delay round trip: when the delay list of `p` is `0` followed by
strictly positive `int` values, `toXml` produces a document, and the profile
constructed from that document has exactly the same delay list, hence the
same `syncRetryAttemptsCount` and the same `syncRetryDelay(i)` for every `i`.
The base-class serialiser and the schedule serialiser are collaborators: the
base element they produce is assumed not to contain a retry-attempts element
of its own. -/
theorem toXml_fromXml_delays (defs : ProfileEngineDefs) (c : Collaborators) (p : SyncProfile)
    (aLocalOnly : Bool) (ds : List Int)
    (hp : p.d_ptr.mSyncRetryIntervals = 0 :: ds)
    (hds : ∀ d ∈ ds, 0 < d ∧ d ≤ INT_MAX)
    (hbase : ∃ t attrs cs, c.profileToXml p.base aLocalOnly = QDomNode.element t attrs cs ∧
      ∀ n ∈ cs, n.isElementNamed defs.TAG_ERROR_ATTEMPTS = false)
    (hsched : p.d_ptr.iSchedule.toXml.isElementNamed defs.TAG_ERROR_ATTEMPTS = false) :
    ∃ doc, SyncProfile.toXml defs c p aLocalOnly = some doc ∧
      (SyncProfile.fromXml defs c doc).d_ptr.mSyncRetryIntervals = 0 :: ds ∧
      (SyncProfile.fromXml defs c doc).syncRetryAttemptsCount = p.syncRetryAttemptsCount ∧
      ∀ i : Int, (SyncProfile.fromXml defs c doc).syncRetryDelay i = p.syncRetryDelay i := by
  obtain ⟨t, attrs, cs, hroot, hcs⟩ := hbase
  obtain ⟨cs1, hroot1, hcs1⟩ :=
    root_with_schedule defs.TAG_ERROR_ATTEMPTS t attrs cs p.d_ptr.iSchedule.toXml hcs hsched
  have key : ∃ doc, SyncProfile.toXml defs c p aLocalOnly = some doc ∧
      (SyncProfile.fromXml defs c doc).d_ptr.mSyncRetryIntervals = 0 :: ds := by
    unfold SyncProfile.toXml
    simp only [hroot, hroot1, hp]
    by_cases hk : ds = []
    · subst hk
      refine ⟨QDomNode.element t attrs cs1, by simp [QList.count], ?_⟩
      rw [fromXml_intervals]
      simp [QDomNode.firstChildElement, QDomNode.childNodes, firstNamed_none _ _ hcs1,
        SyncProfile.retryLoop]
    · have hlen : QList.count (0 :: ds) > 1 := by
        unfold QList.count
        have : 0 < ds.length := List.length_pos.mpr hk
        simp only [List.length_cons]; omega
      refine ⟨QDomNode.element t attrs (cs1 ++ [QDomNode.element defs.TAG_ERROR_ATTEMPTS []
          (ds.map (SyncProfile.retryIntervalElement defs))]), ?_, ?_⟩
      · simp [hlen, toXmlLoop_eq, QDomNode.appendChild]
      · rw [fromXml_intervals]
        simp only [QDomNode.firstChildElement, QDomNode.childNodes]
        rw [firstNamed_append _ _ _ hcs1 (by simp [QDomNode.isElementNamed])]
        simp only [QDomNode.childNodes]
        rw [retryLoop_saved defs ds hds]
        rfl
  obtain ⟨doc, hdoc, hload⟩ := key
  refine ⟨doc, hdoc, hload, ?_, ?_⟩
  · simp [SyncProfile.syncRetryAttemptsCount, hload, hp]
  · intro i
    simp [SyncProfile.syncRetryDelay, hload, hp]

/-- Witness for C1: the profile with delays `[0, 5, 15]` is saved and loaded
back with the same delays. -/
theorem toXml_fromXml_delays_witness :
    ∃ doc, SyncProfile.toXml exDefs exCollab (exProfile true [0, 5, 15] 0) false = some doc ∧
      (SyncProfile.fromXml exDefs exCollab doc).d_ptr.mSyncRetryIntervals = 0 :: [5, 15] ∧
      (SyncProfile.fromXml exDefs exCollab doc).syncRetryAttemptsCount =
        (exProfile true [0, 5, 15] 0).syncRetryAttemptsCount ∧
      ∀ i : Int, (SyncProfile.fromXml exDefs exCollab doc).syncRetryDelay i =
        (exProfile true [0, 5, 15] 0).syncRetryDelay i :=
  toXml_fromXml_delays exDefs exCollab (exProfile true [0, 5, 15] 0) false [5, 15] rfl
    (by decide) ⟨"profile", [("name", "p"), ("type", "sync")], [], rfl, by simp⟩ (by decide)

theorem toXml_example_document : SyncProfile.toXml exDefs exCollab (exProfile true [0, 5, 15] 0) false =
    some (exDocument [[("value", "5")], [("value", "15")]]) := by rfl

/-! ## The next sync time -/

theorem wrapInt32_of_isInt32 (x : Int) (h : isInt32 x) : wrapInt32 x = x := by
  unfold isInt32 INT_MIN INT_MAX at h
  unfold wrapInt32
  omega

/-- C2. In a state with sync type scheduled and attempt counter 0,
`nextSyncTime` returns exactly the result of the periodic schedule calculator
for `lastSyncTime()`, null included; replacing the delay list or the clock
does not change the result. -/
theorem nextSyncTime_scheduled_first_attempt (defs : ProfileEngineDefs) (p : SyncProfile)
    (now : Int) (hs : p.syncType defs = SyncType.SYNC_SCHEDULED)
    (h0 : p.syncCurrentAttempt = 0) :
    p.nextSyncTime defs now = some (p.d_ptr.iSchedule.nextSyncTime p.lastSyncTime) ∧
    ∀ (delays : List Int) (now2 : Int),
      SyncProfile.nextSyncTime defs
        { p with d_ptr := { p.d_ptr with mSyncRetryIntervals := delays } } now2 =
      p.nextSyncTime defs now := by
  unfold SyncProfile.syncCurrentAttempt at h0
  have h1 : p.nextSyncTime defs now = some (p.d_ptr.iSchedule.nextSyncTime p.lastSyncTime) := by
    unfold SyncProfile.nextSyncTime
    simp [hs, h0]
  refine ⟨h1, ?_⟩
  intro delays now2
  rw [h1]
  unfold SyncProfile.nextSyncTime
  rw [if_pos]
  · rfl
  · exact ⟨hs, h0⟩

/-- Witness for C2: scheduled profile, counter 0, delays `[0, 5, 15]`. -/
theorem nextSyncTime_scheduled_first_attempt_witness :
    (exProfile true [0, 5, 15] 0).nextSyncTime exDefs 1000 =
      some ((exProfile true [0, 5, 15] 0).d_ptr.iSchedule.nextSyncTime
        (exProfile true [0, 5, 15] 0).lastSyncTime) ∧
    ∀ (delays : List Int) (now2 : Int),
      SyncProfile.nextSyncTime exDefs
        { exProfile true [0, 5, 15] 0 with
          d_ptr := { (exProfile true [0, 5, 15] 0).d_ptr with mSyncRetryIntervals := delays } }
        now2 =
      (exProfile true [0, 5, 15] 0).nextSyncTime exDefs 1000 :=
  nextSyncTime_scheduled_first_attempt exDefs (exProfile true [0, 5, 15] 0) 1000
    (by decide) (by decide)

/-- While a retry is in progress (`1 ≤ k < n`) and the product `delays[k] * 60`
fits a 32-bit `int`, the next sync time is the current time plus `delays[k]`
minutes, for either sync type. -/
theorem nextSyncTime_retry_in_range (defs : ProfileEngineDefs) (p : SyncProfile) (now : Int)
    (k : Nat) (d : Int) (hk : 1 ≤ k) (hcount : p.syncCurrentAttempt = (k : Int))
    (hd : p.d_ptr.mSyncRetryIntervals.get? k = some d) (hfit : isInt32 (d * 60)) :
    p.nextSyncTime defs now = some (QDateTime.secs (now + 60 * d)) := by
  unfold SyncProfile.syncCurrentAttempt at hcount
  have hlt : k < p.d_ptr.mSyncRetryIntervals.length := by
    rcases List.get?_eq_some.mp hd with ⟨h, _⟩
    exact h
  unfold SyncProfile.nextSyncTime
  have hne : ¬ (p.syncType defs = SyncType.SYNC_SCHEDULED ∧ p.d_ptr.mSyncRetryCount = 0) := by
    rintro ⟨_, h⟩
    omega
  have hcond : QList.count p.d_ptr.mSyncRetryIntervals > 0 ∧ p.d_ptr.mSyncRetryCount > 0 ∧
      p.d_ptr.mSyncRetryCount < QList.count p.d_ptr.mSyncRetryIntervals := by
    unfold QList.count
    omega
  have hat : QList.at p.d_ptr.mSyncRetryIntervals p.d_ptr.mSyncRetryCount = some d := by
    unfold QList.at
    rw [hcount]
    have h2 : 0 ≤ (k : Int) ∧ (k : Int) < QList.count p.d_ptr.mSyncRetryIntervals := by
      unfold QList.count
      omega
    simp only [h2, and_self, if_true, Int.toNat_ofNat, hd]
  simp only [hne, if_false, hcond, and_self, if_true, hat, Option.map_some',
    wrapInt32_of_isInt32 _ hfit, QDateTime.addSecs]
  congr 2
  omega

/-- C3 (defect). The profile loaded from a document with the single delay
`35791395` and advanced to attempt 1 satisfies `1 ≤ currentAttempt < n`, but
the `int` product `35791395 * 60` overflows: `nextSyncTime` returns the current
time minus `2147483596` seconds and not the current time plus
`60 * 35791395` seconds. -/
theorem nextSyncTime_retry_overflow :
    ((SyncProfile.fromXml exDefs exCollab
        (exDocument [[("value", "35791395")]])).setNextAttempt).d_ptr.mSyncRetryIntervals =
      [0, 35791395] ∧
    ((SyncProfile.fromXml exDefs exCollab
        (exDocument [[("value", "35791395")]])).setNextAttempt).syncCurrentAttempt = 1 ∧
    ((SyncProfile.fromXml exDefs exCollab
        (exDocument [[("value", "35791395")]])).setNextAttempt).nextSyncTime exDefs 1000 =
      some (QDateTime.secs (1000 - 2147483596)) ∧
    ((SyncProfile.fromXml exDefs exCollab
        (exDocument [[("value", "35791395")]])).setNextAttempt).nextSyncTime exDefs 1000 ≠
      some (QDateTime.secs (1000 + 60 * 35791395)) := by
  refine ⟨by decide, by decide, by decide, by decide⟩

/-- C4 (counterexample). A scheduled profile with delays `[0, 5, 15]` is
cloned and the attempts of the clone are reset: the clone has an empty delay
list, so `currentAttempt = 0 ≥ n = 0`, and `nextSyncTime` returns the result
of the periodic schedule, which is not null. -/
theorem nextSyncTime_no_attempts_left_counterexample :
    (((exProfile true [0, 5, 15] 0).clone 7).resetAttempts).syncCurrentAttempt ≥
      (((exProfile true [0, 5, 15] 0).clone 7).resetAttempts).syncRetryAttemptsCount ∧
    (((exProfile true [0, 5, 15] 0).clone 7).resetAttempts).nextSyncTime exDefs 1000 =
      some (QDateTime.secs 3600) ∧
    (((exProfile true [0, 5, 15] 0).clone 7).resetAttempts).nextSyncTime exDefs 1000 ≠
      some QDateTime.null := by
  refine ⟨by decide, by decide, by decide⟩

/-- C4 (amended). If `currentAttempt ≥ n` and either the delay list is not
empty or the state is not "scheduled with attempt counter 0", `nextSyncTime`
returns the null time, whatever the sync type, schedule and log. -/
theorem nextSyncTime_no_attempts_left (defs : ProfileEngineDefs) (p : SyncProfile) (now : Int)
    (h : p.syncCurrentAttempt ≥ p.syncRetryAttemptsCount)
    (hne : 1 ≤ p.syncRetryAttemptsCount ∨
      ¬ (p.syncType defs = SyncType.SYNC_SCHEDULED ∧ p.syncCurrentAttempt = 0)) :
    p.nextSyncTime defs now = some QDateTime.null := by
  unfold SyncProfile.syncCurrentAttempt SyncProfile.syncRetryAttemptsCount at *
  unfold SyncProfile.nextSyncTime
  have h1 : ¬ (p.syncType defs = SyncType.SYNC_SCHEDULED ∧ p.d_ptr.mSyncRetryCount = 0) := by
    rcases hne with hn | hn
    · rintro ⟨_, h0⟩
      omega
    · exact hn
  have h2 : ¬ (QList.count p.d_ptr.mSyncRetryIntervals > 0 ∧ p.d_ptr.mSyncRetryCount > 0 ∧
      p.d_ptr.mSyncRetryCount < QList.count p.d_ptr.mSyncRetryIntervals) := by
    rintro ⟨_, _, h3⟩
    omega
  simp only [h1, h2, if_false]

/-- Witness for C4: delays `[0, 5, 15]`, attempt counter 3, either sync type. -/
theorem nextSyncTime_no_attempts_left_witness :
    (exProfile true [0, 5, 15] 3).nextSyncTime exDefs 1000 = some QDateTime.null :=
  nextSyncTime_no_attempts_left exDefs (exProfile true [0, 5, 15] 3) 1000 (by decide)
    (Or.inl (by decide))

theorem nextSyncTime_example_attempt_1 : (exProfile false [0, 5, 15] 1).nextSyncTime exDefs 1000 =
    some (QDateTime.secs 1300) := by decide
theorem nextSyncTime_example_attempt_2 : (exProfile true [0, 5, 15] 2).nextSyncTime exDefs 1000 =
    some (QDateTime.secs 1900) := by decide
theorem nextSyncTime_example_attempt_3 : (exProfile false [0, 5, 15] 3).nextSyncTime exDefs 1000 =
    some QDateTime.null := by decide

/-! ## Copying a profile -/

/-- C5 (defect). The copy constructor does not copy the retry state: the copy
of the profile with delays `[0, 5, 15]` has an empty delay list, its
`syncRetryAttemptsCount` is 0 instead of 3 and its `syncRetryDelay(1)` is the
sentinel instead of 5, whatever value the uninitialised counter holds; only the
schedule is taken over. -/
theorem clone_drops_retry_delays (indeterminate : Int) :
    ((exProfile false [0, 5, 15] 0).clone indeterminate).syncRetryAttemptsCount = 0 ∧
    (exProfile false [0, 5, 15] 0).syncRetryAttemptsCount = 3 ∧
    ((exProfile false [0, 5, 15] 0).clone indeterminate).syncRetryDelay 1 = some (-1) ∧
    (exProfile false [0, 5, 15] 0).syncRetryDelay 1 = some 5 ∧
    ((exProfile false [0, 5, 15] 0).clone indeterminate).syncCurrentAttempt = indeterminate ∧
    ((exProfile false [0, 5, 15] 0).clone indeterminate).d_ptr.iSchedule =
      (exProfile false [0, 5, 15] 0).d_ptr.iSchedule := by
  refine ⟨rfl, by decide, rfl, by decide, rfl, rfl⟩

/-! ## The retry state machine -/

theorem QList_at_of_lt (l : List Int) (i : Int) (h : 0 ≤ i ∧ i < QList.count l) :
    ∃ hlt : i.toNat < l.length, QList.at l i = some (l.get ⟨i.toNat, hlt⟩) := by
  have hlt : i.toNat < l.length := by
    unfold QList.count at h
    omega
  refine ⟨hlt, ?_⟩
  unfold QList.at
  simp only [h, and_self, if_true]
  rw [List.get?_eq_get hlt]

theorem new_intervals (defs : ProfileEngineDefs) (c : Collaborators) (aName : String) :
    (SyncProfile.new defs c aName).d_ptr.mSyncRetryIntervals = [0] := rfl

theorem specDelayList_nonneg (defs : ProfileEngineDefs) (aRoot : QDomNode) :
    ∀ v ∈ specDelayList defs aRoot, 0 ≤ v := by
  intro v hv
  unfold specDelayList at hv
  rcases List.mem_cons.mp hv with h | h
  · omega
  · have := specDelayList_tail_pos defs aRoot v (by simpa [specDelayList] using h)
    omega

theorem syncRetryDelay_sentinel_iff (p : SyncProfile) (i : Int)
    (hnn : ∀ v ∈ p.d_ptr.mSyncRetryIntervals, 0 ≤ v) :
    p.syncRetryDelay i = some (-1) ↔ ¬ (0 ≤ i ∧ i < p.syncRetryAttemptsCount) := by
  unfold SyncProfile.syncRetryDelay SyncProfile.syncRetryAttemptsCount
  by_cases h : 0 ≤ i ∧ i < QList.count p.d_ptr.mSyncRetryIntervals
  · have h2 : i ≥ 0 ∧ i < QList.count p.d_ptr.mSyncRetryIntervals := h
    obtain ⟨hlt, hat⟩ := QList_at_of_lt _ i h
    simp only [h2, and_self, if_true, hat, Option.some.injEq, h, not_true_eq_false, iff_false]
    have := hnn _ (List.get_mem p.d_ptr.mSyncRetryIntervals i.toNat hlt)
    omega
  · have h2 : ¬ (i ≥ 0 ∧ i < QList.count p.d_ptr.mSyncRetryIntervals) := h
    simp only [h2, if_false, h, not_false_eq_true]

/-- C7. `syncRetryDelay(i)` is total: for every integer `i` it returns
`delays[i]` when `0 ≤ i < n` and the sentinel `-1` otherwise, and it never
fails; on a profile constructed by name or loaded from a document the result
is `-1` exactly when `i` is out of range. -/
theorem syncRetryDelay_total (p : SyncProfile) (i : Int) :
    (0 ≤ i ∧ i < p.syncRetryAttemptsCount →
      ∃ hlt : i.toNat < p.d_ptr.mSyncRetryIntervals.length,
        p.syncRetryDelay i = some (p.d_ptr.mSyncRetryIntervals.get ⟨i.toNat, hlt⟩)) ∧
    (¬ (0 ≤ i ∧ i < p.syncRetryAttemptsCount) → p.syncRetryDelay i = some (-1)) ∧
    (p.syncRetryDelay i).isSome = true ∧
    (∀ (defs : ProfileEngineDefs) (c : Collaborators) (aName : String),
      (SyncProfile.new defs c aName).syncRetryDelay i = some (-1) ↔
        ¬ (0 ≤ i ∧ i < (SyncProfile.new defs c aName).syncRetryAttemptsCount)) ∧
    (∀ (defs : ProfileEngineDefs) (c : Collaborators) (aRoot : QDomNode),
      (SyncProfile.fromXml defs c aRoot).syncRetryDelay i = some (-1) ↔
        ¬ (0 ≤ i ∧ i < (SyncProfile.fromXml defs c aRoot).syncRetryAttemptsCount)) := by
  have hin : 0 ≤ i ∧ i < p.syncRetryAttemptsCount →
      ∃ hlt : i.toNat < p.d_ptr.mSyncRetryIntervals.length,
        p.syncRetryDelay i = some (p.d_ptr.mSyncRetryIntervals.get ⟨i.toNat, hlt⟩) := by
    intro h
    unfold SyncProfile.syncRetryAttemptsCount at h
    obtain ⟨hlt, hat⟩ := QList_at_of_lt _ i h
    refine ⟨hlt, ?_⟩
    unfold SyncProfile.syncRetryDelay
    have h2 : i ≥ 0 ∧ i < QList.count p.d_ptr.mSyncRetryIntervals := h
    simp only [h2, and_self, if_true, hat]
  have hout : ¬ (0 ≤ i ∧ i < p.syncRetryAttemptsCount) → p.syncRetryDelay i = some (-1) := by
    intro h
    unfold SyncProfile.syncRetryAttemptsCount at h
    unfold SyncProfile.syncRetryDelay
    have h2 : ¬ (i ≥ 0 ∧ i < QList.count p.d_ptr.mSyncRetryIntervals) := h
    simp only [h2, if_false]
  refine ⟨hin, hout, ?_, ?_, ?_⟩
  · by_cases h : 0 ≤ i ∧ i < p.syncRetryAttemptsCount
    · obtain ⟨_, he⟩ := hin h
      rw [he]; rfl
    · rw [hout h]; rfl
  · intro defs c aName
    apply syncRetryDelay_sentinel_iff
    intro v hv
    rw [new_intervals] at hv
    simp only [List.mem_singleton] at hv
    omega
  · intro defs c aRoot
    apply syncRetryDelay_sentinel_iff
    intro v hv
    rw [fromXml_intervals_spec] at hv
    exact specDelayList_nonneg defs aRoot v hv

/-- Witness for C7: index 1 of the delays `[0, 5, 15]` is in range. -/
theorem syncRetryDelay_total_witness :
    ∃ hlt : (1 : Int).toNat < (exProfile false [0, 5, 15] 0).d_ptr.mSyncRetryIntervals.length,
      (exProfile false [0, 5, 15] 0).syncRetryDelay 1 =
        some ((exProfile false [0, 5, 15] 0).d_ptr.mSyncRetryIntervals.get ⟨(1 : Int).toNat, hlt⟩) :=
  (syncRetryDelay_total (exProfile false [0, 5, 15] 0) 1).1 (by decide)

theorem syncRetryDelay_example_in_range : (exProfile false [0, 5, 15] 0).syncRetryDelay 2 = some 15 := by decide
theorem syncRetryDelay_example_past_end : (exProfile false [0, 5, 15] 0).syncRetryDelay 3 = some (-1) := by decide
theorem syncRetryDelay_example_negative : (exProfile false [0, 5, 15] 0).syncRetryDelay (-1) = some (-1) := by decide

/-- C8. In every state whose delay list has length `n ≥ 1`, whatever the
attempt counter was, after `resetAttempts()` the counter is 0 and
`needNextAttempt()` is true. -/
theorem resetAttempts_needNextAttempt (p : SyncProfile) (hn : 1 ≤ p.syncRetryAttemptsCount) :
    p.resetAttempts.syncCurrentAttempt = 0 ∧ p.resetAttempts.needNextAttempt = true := by
  unfold SyncProfile.syncRetryAttemptsCount at hn
  refine ⟨rfl, ?_⟩
  unfold SyncProfile.needNextAttempt SyncProfile.resetAttempts
  simp only [decide_eq_true_eq]
  omega

/-- Witness for C8: delays `[0, 5, 15]` with the counter at 7. -/
theorem resetAttempts_needNextAttempt_witness :
    (exProfile false [0, 5, 15] 7).resetAttempts.syncCurrentAttempt = 0 ∧
    (exProfile false [0, 5, 15] 7).resetAttempts.needNextAttempt = true :=
  resetAttempts_needNextAttempt (exProfile false [0, 5, 15] 7) (by decide)

theorem setNextAttempt_intervals (p : SyncProfile) :
    p.setNextAttempt.d_ptr.mSyncRetryIntervals = p.d_ptr.mSyncRetryIntervals := rfl

/-- C9 (counterexample). With the counter at the largest `int`,
`needNextAttempt()` is false, and one more `setNextAttempt()` wraps the
counter to the smallest `int`, after which `needNextAttempt()` is true. -/
theorem needNextAttempt_absorbing_counterexample :
    ((exProfile false [0, 5, 15] 0).setSyncRetryAttemp 2147483647).needNextAttempt = false ∧
    (setNextAttemptTimes 1
      ((exProfile false [0, 5, 15] 0).setSyncRetryAttemp 2147483647)).syncCurrentAttempt =
        -2147483648 ∧
    (setNextAttemptTimes 1
      ((exProfile false [0, 5, 15] 0).setSyncRetryAttemp 2147483647)).needNextAttempt = true := by
  refine ⟨by decide, by decide, by decide⟩

/-- C9 (amended). If `needNextAttempt()` is false, it is still false after `m`
further calls of `setNextAttempt()`, as long as the 32-bit counter does not
overflow, i.e. `currentAttempt + m ≤ 2^31 - 1`; the counter is then
`currentAttempt + m`. -/
theorem needNextAttempt_absorbing (m : Nat) :
    ∀ p : SyncProfile, p.needNextAttempt = false →
      p.syncCurrentAttempt + (m : Int) ≤ INT_MAX →
      (setNextAttemptTimes m p).needNextAttempt = false ∧
      (setNextAttemptTimes m p).syncCurrentAttempt = p.syncCurrentAttempt + (m : Int) := by
  induction m with
  | zero =>
    intro p h _
    exact ⟨h, by simp [setNextAttemptTimes]⟩
  | succ k ih =>
    intro p hterm hb
    unfold SyncProfile.syncCurrentAttempt at hb
    have hge : QList.count p.d_ptr.mSyncRetryIntervals ≤ p.d_ptr.mSyncRetryCount := by
      unfold SyncProfile.needNextAttempt at hterm
      simpa using hterm
    have hnn : (0 : Int) ≤ QList.count p.d_ptr.mSyncRetryIntervals := by
      unfold QList.count; omega
    have hstep : p.setNextAttempt.d_ptr.mSyncRetryCount = p.d_ptr.mSyncRetryCount + 1 := by
      show wrapInt32 (p.d_ptr.mSyncRetryCount + 1) = p.d_ptr.mSyncRetryCount + 1
      apply wrapInt32_of_isInt32
      unfold isInt32 INT_MIN
      unfold INT_MAX at hb ⊢
      push_cast at hb
      omega
    have hterm2 : p.setNextAttempt.needNextAttempt = false := by
      unfold SyncProfile.needNextAttempt
      rw [hstep, setNextAttempt_intervals]
      simp only [decide_eq_false_iff_not, not_lt]
      omega
    have hb2 : p.setNextAttempt.syncCurrentAttempt + (k : Int) ≤ INT_MAX := by
      unfold SyncProfile.syncCurrentAttempt
      rw [hstep]
      push_cast at hb
      omega
    obtain ⟨h1, h2⟩ := ih p.setNextAttempt hterm2 hb2
    refine ⟨h1, ?_⟩
    show (setNextAttemptTimes k p.setNextAttempt).syncCurrentAttempt = _
    rw [h2]
    unfold SyncProfile.syncCurrentAttempt
    rw [hstep]
    push_cast
    omega

/-- Witness for C9: delays `[0, 5, 15]`, counter 3, four further calls. -/
theorem needNextAttempt_absorbing_witness :
    (setNextAttemptTimes 4 (exProfile false [0, 5, 15] 3)).needNextAttempt = false ∧
    (setNextAttemptTimes 4 (exProfile false [0, 5, 15] 3)).syncCurrentAttempt =
      (exProfile false [0, 5, 15] 3).syncCurrentAttempt + ((4 : Nat) : Int) :=
  needNextAttempt_absorbing 4 (exProfile false [0, 5, 15] 3) (by decide) (by decide)

/-! ## Enabled storage backends -/

theorem find_storage_of_nodup (aType : String) (subs : List SubProfile) :
    ((subs.filter (fun s => s.type == aType)).map (fun s => s.name)).Nodup →
    ∀ s ∈ subs.filter (fun s => s.type == aType),
      subs.find? (fun x => x.name == s.name && x.type == aType) = some s := by
  induction subs with
  | nil => intro _ s hs; simp at hs
  | cons x xs ih =>
    intro hnd s hs
    by_cases hx : x.type = aType
    · have hxb : (x.type == aType) = true := by simp [hx]
      simp only [List.filter_cons, hxb, if_true] at hnd hs
      simp only [List.map_cons, List.nodup_cons] at hnd
      rcases List.mem_cons.mp hs with h | h
      · subst h
        simp [List.find?, hx]
      · have hne : x.name ≠ s.name := by
          intro he
          apply hnd.1
          rw [he]
          exact List.mem_map.mpr ⟨s, h, rfl⟩
        have hb : (x.name == s.name && x.type == aType) = false := by simp [hne]
        simp only [List.find?_cons, hb]
        exact ih hnd.2 s h
    · have hxb : (x.type == aType) = false := by simp [hx]
      simp only [List.filter_cons, hxb, Bool.false_eq_true, if_false] at hnd hs
      have hb : (x.name == s.name && x.type == aType) = false := by simp [hx]
      simp only [List.find?_cons, hb]
      exact ih hnd s hs

theorem backend_fold (defs : ProfileEngineDefs) (base : Profile) (storages : List SubProfile)
    (hfind : ∀ s ∈ storages, base.subProfile s.name defs.TYPE_STORAGE = some s) :
    ∀ acc : List String,
      (storages.map (fun s => s.name)).foldlM
        (fun enabledStorageBackends storage =>
          match base.subProfile storage defs.TYPE_STORAGE with
          | none => none
          | some sp =>
            if sp.isEnabled then
              some (enabledStorageBackends ++ [sp.key defs.KEY_BACKEND sp.name])
            else some enabledStorageBackends)
        acc =
      some (acc ++ (storages.filter (fun s => s.enabled)).map
        (fun s => (lookupKey defs.KEY_BACKEND s.keys).getD s.name)) := by
  induction storages with
  | nil => intro acc; simp
  | cons x xs ih =>
    intro acc
    have hx := hfind x (List.mem_cons_self x xs)
    have ih2 := ih (fun s hs => hfind s (List.mem_cons_of_mem x hs))
    simp only [List.map_cons, List.foldlM_cons, hx]
    by_cases he : x.enabled = true
    · have he1 : x.isEnabled = true := he
      simp only [he1, if_true, Option.bind_eq_bind, Option.some_bind]
      rw [ih2]
      simp [List.filter_cons, he, SubProfile.key]
    · have he2 : x.enabled = false := by
        cases h : x.enabled
        · rfl
        · exact absurd h he
      have he1 : x.isEnabled = false := he2
      simp only [he1, Bool.false_eq_true, if_false, Option.bind_eq_bind, Option.some_bind]
      rw [ih2]
      simp [List.filter_cons, he2]

/-- C10 (counterexample). Two storage sub-profiles share the name `contacts`;
the first is enabled with backend `b1`, the second is disabled. Exactly one
storage sub-profile is enabled, but `storageBackendNames` returns two entries,
because both names are looked up by name and resolve to the first sub-profile. -/
theorem storageBackendNames_counterexample :
    (exProfileWith [exStorage "contacts" true [("backend", "b1")],
        exStorage "contacts" false []]).storageBackendNames exDefs = some ["b1", "b1"] ∧
    specBackendNames exDefs
      (exProfileWith [exStorage "contacts" true [("backend", "b1")],
        exStorage "contacts" false []]).base = ["b1"] ∧
    (exProfileWith [exStorage "contacts" true [("backend", "b1")],
        exStorage "contacts" false []]).storageBackendNames exDefs ≠
      some (specBackendNames exDefs
        (exProfileWith [exStorage "contacts" true [("backend", "b1")],
          exStorage "contacts" false []]).base) := by
  refine ⟨by decide, by decide, by decide⟩

/-- C10 (amended). When the storage sub-profiles have pairwise distinct names,
`storageBackendNames()` returns exactly one entry per enabled storage
sub-profile, in enumeration order and without deduplication of the entries,
each entry being the backend key value or, when that key is unset, the name
of the sub-profile; disabled and non-storage sub-profiles contribute nothing. -/
theorem storageBackendNames_spec (defs : ProfileEngineDefs) (p : SyncProfile)
    (hnames : (p.base.subProfileNames defs.TYPE_STORAGE).Nodup) :
    p.storageBackendNames defs = some (specBackendNames defs p.base) := by
  unfold Profile.subProfileNames at hnames
  have hfind : ∀ s ∈ p.base.subProfiles.filter (fun s => s.type == defs.TYPE_STORAGE),
      p.base.subProfile s.name defs.TYPE_STORAGE = some s := by
    intro s hs
    unfold Profile.subProfile
    exact find_storage_of_nodup defs.TYPE_STORAGE p.base.subProfiles hnames s hs
  have h := backend_fold defs p.base _ hfind []
  unfold SyncProfile.storageBackendNames Profile.subProfileNames
  rw [h]
  simp [specBackendNames, List.filter_filter, Bool.and_comm]

/-- Witness for C10: two storage sub-profiles, one of them disabled, and a
client sub-profile give exactly one name. -/
theorem storageBackendNames_spec_witness :
    (exProfileWith [exStorage "contacts" false [("backend", "b1")],
        { name := "syncml", type := "client", keys := [], enabled := true },
        exStorage "calendar" true []]).storageBackendNames exDefs =
      some (specBackendNames exDefs
        (exProfileWith [exStorage "contacts" false [("backend", "b1")],
          { name := "syncml", type := "client", keys := [], enabled := true },
          exStorage "calendar" true []]).base) :=
  storageBackendNames_spec exDefs _ (by decide)

theorem storageBackendNames_example_one_enabled : (exProfileWith [exStorage "contacts" false [("backend", "b1")],
    { name := "syncml", type := "client", keys := [], enabled := true },
    exStorage "calendar" true []]).storageBackendNames exDefs = some ["calendar"] := by decide

theorem storageBackendNames_example_duplicates_kept : (exProfileWith [exStorage "a" true [("backend", "hcontacts")],
    exStorage "b" true [("backend", "hcontacts")]]).storageBackendNames exDefs =
    some ["hcontacts", "hcontacts"] := by decide

theorem toInt_example_spaces : QString.toInt " 15 " = some 15 := by decide
theorem toInt_example_negative : QString.toInt "-1" = some (-1) := by decide
theorem toInt_example_letters : QString.toInt "abc" = none := by decide
theorem toInt_example_empty : QString.toInt "" = none := by decide
theorem toInt_example_too_large : QString.toInt "2147483648" = none := by decide
theorem number_example_15 : QString.number 15 = "15" := by decide
theorem number_example_0 : QString.number 0 = "0" := by decide
theorem number_example_negative : QString.number (-7) = "-7" := by decide
theorem toInt_number_example : QString.toInt (QString.number 35791395) = some 35791395 := by decide

/-! ## Manual mode and index safety of the next sync time -/

theorem nextSyncTime_of_manual (defs : ProfileEngineDefs) (q : SyncProfile) (now : Int)
    (hm : q.syncType defs = SyncType.SYNC_MANUAL) :
    q.nextSyncTime defs now =
      if QList.count q.d_ptr.mSyncRetryIntervals > 0 ∧ q.d_ptr.mSyncRetryCount > 0 ∧
          q.d_ptr.mSyncRetryCount < QList.count q.d_ptr.mSyncRetryIntervals then
        (QList.at q.d_ptr.mSyncRetryIntervals q.d_ptr.mSyncRetryCount).map
          (fun delay => (QDateTime.secs now).addSecs (wrapInt32 (delay * 60)))
      else some QDateTime.null := by
  unfold SyncProfile.nextSyncTime
  rw [if_neg]
  rintro ⟨h, _⟩
  rw [hm] at h
  exact absurd h (by decide)

/-- C17. In a state with sync type manual and attempt counter 0,
`nextSyncTime` returns the null time whatever the delay list, the schedule and
the log are; in manual mode the result does not depend on the periodic
schedule at all, whatever the attempt counter is. -/
theorem nextSyncTime_manual_first_attempt (defs : ProfileEngineDefs) (p : SyncProfile)
    (now : Int) (hm : p.syncType defs = SyncType.SYNC_MANUAL)
    (h0 : p.syncCurrentAttempt = 0) :
    p.nextSyncTime defs now = some QDateTime.null ∧
    ∀ (aSchedule : SyncSchedule) (k now2 : Int),
      SyncProfile.nextSyncTime defs
        { p with d_ptr := { p.d_ptr with iSchedule := aSchedule, mSyncRetryCount := k } } now2 =
      SyncProfile.nextSyncTime defs
        { p with d_ptr := { p.d_ptr with mSyncRetryCount := k } } now2 := by
  unfold SyncProfile.syncCurrentAttempt at h0
  constructor
  · rw [nextSyncTime_of_manual defs p now hm, if_neg]
    rintro ⟨_, h, _⟩
    omega
  · intro aSchedule k now2
    have e1 := nextSyncTime_of_manual defs
      { p with d_ptr := { p.d_ptr with iSchedule := aSchedule, mSyncRetryCount := k } } now2 hm
    have e2 := nextSyncTime_of_manual defs
      { p with d_ptr := { p.d_ptr with mSyncRetryCount := k } } now2 hm
    rw [e1, e2]

/-- Witness for C17: manual profile with delays `[0, 5, 15]` and counter 0. -/
theorem nextSyncTime_manual_first_attempt_witness :
    (exProfile false [0, 5, 15] 0).nextSyncTime exDefs 1000 = some QDateTime.null :=
  (nextSyncTime_manual_first_attempt exDefs (exProfile false [0, 5, 15] 0) 1000
    (by decide) (by decide)).1

theorem nextSyncTime_isSome (defs : ProfileEngineDefs) (p : SyncProfile) (now : Int) :
    (p.nextSyncTime defs now).isSome = true := by
  unfold SyncProfile.nextSyncTime
  split_ifs with h1 h2
  · rfl
  · obtain ⟨_, hat⟩ := QList_at_of_lt p.d_ptr.mSyncRetryIntervals p.d_ptr.mSyncRetryCount
      ⟨by omega, h2.2.2⟩
    rw [hat]
    rfl
  · rfl

theorem syncRetryDelay_isSome (p : SyncProfile) (i : Int) :
    (p.syncRetryDelay i).isSome = true := by
  unfold SyncProfile.syncRetryDelay
  split_ifs with h
  · obtain ⟨_, hat⟩ := QList_at_of_lt p.d_ptr.mSyncRetryIntervals i ⟨h.1, h.2⟩
    rw [hat]
    rfl
  · rfl

/-- C19. For every value of the attempt counter and of the index argument and
every delay list, the empty one included, the list access of `nextSyncTime()`
and of `syncRetryDelay()` never fails: the list is read only at an index
`0 ≤ i < n`. With a negative counter `nextSyncTime()` returns the null time
although `needNextAttempt()` is true. -/
theorem retry_index_safety (defs : ProfileEngineDefs) (p : SyncProfile) (now i : Int) :
    (p.nextSyncTime defs now).isSome = true ∧
    (p.syncRetryDelay i).isSome = true ∧
    (p.syncCurrentAttempt < 0 →
      p.nextSyncTime defs now = some QDateTime.null ∧ p.needNextAttempt = true) := by
  refine ⟨nextSyncTime_isSome defs p now, syncRetryDelay_isSome p i, ?_⟩
  intro hneg
  unfold SyncProfile.syncCurrentAttempt at hneg
  constructor
  · unfold SyncProfile.nextSyncTime
    have h1 : ¬ (p.syncType defs = SyncType.SYNC_SCHEDULED ∧ p.d_ptr.mSyncRetryCount = 0) := by
      rintro ⟨_, h⟩
      omega
    have h2 : ¬ (QList.count p.d_ptr.mSyncRetryIntervals > 0 ∧ p.d_ptr.mSyncRetryCount > 0 ∧
        p.d_ptr.mSyncRetryCount < QList.count p.d_ptr.mSyncRetryIntervals) := by
      rintro ⟨_, h, _⟩
      omega
    simp only [h1, h2, if_false]
  · unfold SyncProfile.needNextAttempt QList.count
    simp only [decide_eq_true_eq]
    omega

/-- Witness for C19: scheduled profile with delays `[0, 5, 15]` and the counter
set to `-3`. -/
theorem retry_index_safety_witness :
    (exProfile true [0, 5, 15] (-3)).nextSyncTime exDefs 1000 = some QDateTime.null ∧
    (exProfile true [0, 5, 15] (-3)).needNextAttempt = true :=
  (retry_index_safety exDefs (exProfile true [0, 5, 15] (-3)) 1000 7).2.2 (by decide)

theorem retry_index_safety_example_empty_list :
    (exProfile false [] 0).nextSyncTime exDefs 1000 = some QDateTime.null ∧
    (exProfile false [] 5).nextSyncTime exDefs 1000 = some QDateTime.null ∧
    (exProfile false [] 0).syncRetryDelay 0 = some (-1) := by
  refine ⟨by decide, by decide, by decide⟩

/-! ## The persisted shape of the retry section -/

theorem toXmlLoop_cons (defs : ProfileEngineDefs) (d0 : Int) (ds : List Int) :
    SyncProfile.toXmlLoop defs (d0 :: ds) (QDomNode.element defs.TAG_ERROR_ATTEMPTS [] []) =
      some (QDomNode.element defs.TAG_ERROR_ATTEMPTS []
        (ds.map (SyncProfile.retryIntervalElement defs))) := by
  unfold SyncProfile.toXmlLoop
  have h := toXml_fold defs defs.TAG_ERROR_ATTEMPTS [] ds [d0] []
  simpa using h

/-- C18. For every profile, `toXml` returns the base-class element with the
schedule appended and, when the delay list has at most one element, nothing
else; with `n > 1` delays it appends exactly one retry-attempts element whose
children are the `n - 1` attempt-delay elements with the values `delays[1]`,
..., `delays[n-1]` in this order. Element 0 of the list is not written. -/
theorem toXml_retry_section (defs : ProfileEngineDefs) (c : Collaborators) (p : SyncProfile)
    (aLocalOnly : Bool) :
    p.toXml defs c aLocalOnly =
      some (match specRetrySection defs p.d_ptr.mSyncRetryIntervals with
        | none => rootWithSchedule c p aLocalOnly
        | some retries => (rootWithSchedule c p aLocalOnly).appendChild retries) ∧
    (p.syncRetryAttemptsCount ≤ 1 →
      p.toXml defs c aLocalOnly = some (rootWithSchedule c p aLocalOnly)) ∧
    (∀ retries, specRetrySection defs p.d_ptr.mSyncRetryIntervals = some retries →
      retries.isElementNamed defs.TAG_ERROR_ATTEMPTS = true ∧
      retries.childNodes.length + 1 = p.d_ptr.mSyncRetryIntervals.length ∧
      retries.childNodes.map (fun n => n.attributeValue defs.ATTR_VALUE "") =
        p.d_ptr.mSyncRetryIntervals.tail.map QString.number) := by
  have hsmall : QList.count p.d_ptr.mSyncRetryIntervals ≤ 1 →
      p.toXml defs c aLocalOnly = some (rootWithSchedule c p aLocalOnly) := by
    intro h
    unfold SyncProfile.toXml rootWithSchedule
    have h2 : ¬ QList.count p.d_ptr.mSyncRetryIntervals > 1 := by omega
    simp only [h2, if_false]
  refine ⟨?_, hsmall, ?_⟩
  · by_cases hn : p.d_ptr.mSyncRetryIntervals.length ≤ 1
    · have hc : QList.count p.d_ptr.mSyncRetryIntervals ≤ 1 := by
        unfold QList.count; omega
      rw [hsmall hc]
      simp [specRetrySection, hn]
    · cases hl : p.d_ptr.mSyncRetryIntervals with
      | nil => rw [hl] at hn; simp at hn
      | cons d0 ds =>
        rw [hl] at hn
        have hc : QList.count (d0 :: ds) > 1 := by
          unfold QList.count
          simp only [List.length_cons] at hn ⊢
          omega
        unfold SyncProfile.toXml
        simp only [hl, hc, if_true, toXmlLoop_cons, Option.map_some', specRetrySection, hn,
          if_false, List.tail_cons, rootWithSchedule]
        rfl
  · intro retries hr
    unfold specRetrySection at hr
    split_ifs at hr with hn
    simp only [Option.some.injEq] at hr
    subst hr
    refine ⟨by simp [QDomNode.isElementNamed], ?_, ?_⟩
    · simp only [QDomNode.childNodes, List.length_map, List.length_tail]
      omega
    · simp only [QDomNode.childNodes, List.map_map]
      apply List.map_congr_left
      intro v _
      simp [QDomNode.attributeValue, QDomNode.lookupAttr]

/-- Witness for C18: the profile copied from another one has an empty delay
list and is saved without a retry section. -/
theorem toXml_retry_section_witness :
    ((exProfile true [0, 5, 15] 0).clone 0).toXml exDefs exCollab false =
      some (rootWithSchedule exCollab ((exProfile true [0, 5, 15] 0).clone 0) false) :=
  (toXml_retry_section exDefs exCollab ((exProfile true [0, 5, 15] 0).clone 0) false).2.1
    (by decide)

theorem specRetrySection_example :
    specRetrySection exDefs [0, 5, 15] =
      some (QDomNode.element "errorattempts" []
        [QDomNode.element "attemptdelay" [("value", "5")] [],
         QDomNode.element "attemptdelay" [("value", "15")] []]) ∧
    specRetrySection exDefs [0] = none ∧ specRetrySection exDefs [] = none := by
  refine ⟨by rfl, by rfl, by rfl⟩

/-! ## The seconds offset of a retry -/

theorem nextSyncTime_retry_eq_offset (defs : ProfileEngineDefs) (p : SyncProfile) (now : Int)
    (h1 : 1 ≤ p.syncCurrentAttempt) (h2 : p.syncCurrentAttempt < p.syncRetryAttemptsCount) :
    p.nextSyncTime defs now =
      p.retryOffsetSecs.map (fun secs => (QDateTime.secs now).addSecs secs) := by
  unfold SyncProfile.syncCurrentAttempt at h1 h2
  unfold SyncProfile.syncRetryAttemptsCount at h2
  unfold SyncProfile.nextSyncTime SyncProfile.retryOffsetSecs
  have hne : ¬ (p.syncType defs = SyncType.SYNC_SCHEDULED ∧ p.d_ptr.mSyncRetryCount = 0) := by
    rintro ⟨_, h⟩
    omega
  have hcond : QList.count p.d_ptr.mSyncRetryIntervals > 0 ∧ p.d_ptr.mSyncRetryCount > 0 ∧
      p.d_ptr.mSyncRetryCount < QList.count p.d_ptr.mSyncRetryIntervals := by
    refine ⟨by omega, by omega, h2⟩
  simp only [hne, if_false, hcond, and_self, if_true, Option.map_map]
  rfl

/-- C20 (defect). The profile loaded from a document with the single delay
`35791395`, a positive `int` that the load accepts, and advanced to attempt 1
has `1 ≤ currentAttempt < n`, but the seconds offset that `nextSyncTime()`
adds to the current time is `-2147483596`: it is not the exact product
`60 * 35791395 = 2147483700` and it is not positive, so the retry time lies
before the current time. -/
theorem retryOffsetSecs_overflow :
    ((SyncProfile.fromXml exDefs exCollab
        (exDocument [[("value", "35791395")]])).setNextAttempt).syncCurrentAttempt = 1 ∧
    ((SyncProfile.fromXml exDefs exCollab
        (exDocument [[("value", "35791395")]])).setNextAttempt).syncRetryAttemptsCount = 2 ∧
    ((SyncProfile.fromXml exDefs exCollab
        (exDocument [[("value", "35791395")]])).setNextAttempt).syncRetryDelay 1 =
      some 35791395 ∧
    ((SyncProfile.fromXml exDefs exCollab
        (exDocument [[("value", "35791395")]])).setNextAttempt).retryOffsetSecs =
      some (-2147483596) ∧
    ((SyncProfile.fromXml exDefs exCollab
        (exDocument [[("value", "35791395")]])).setNextAttempt).retryOffsetSecs ≠
      some (60 * 35791395) ∧
    ((SyncProfile.fromXml exDefs exCollab
        (exDocument [[("value", "35791395")]])).setNextAttempt).nextSyncTime exDefs 1000 =
      some (QDateTime.secs (1000 + -2147483596)) := by
  refine ⟨by decide, by decide, by decide, by decide, by decide, by decide⟩

theorem retryOffsetSecs_example_largest_delay :
    ((SyncProfile.fromXml exDefs exCollab
        (exDocument [[("value", "2147483647")]])).setNextAttempt).retryOffsetSecs =
      some (-60) := by decide

theorem retryOffsetSecs_example_largest_exact :
    ((SyncProfile.fromXml exDefs exCollab
        (exDocument [[("value", "35791394")]])).setNextAttempt).retryOffsetSecs =
      some (60 * 35791394) := by decide

/-! ## Typed settings: direction, conflict policy, destination type -/

theorem getD_beq_table (o : Option String) (t : String) (ht : t ≠ "") :
    (o.getD "" == t) = true ↔ o = some t := by
  cases o with
  | none =>
    simp only [Option.getD_none, beq_iff_eq]
    constructor
    · intro h; exact absurd h.symm ht
    · intro h; cases h
  | some v => simp

theorem syncDirection_eq (defs : ProfileEngineDefs) (p : SyncProfile) :
    p.syncDirection defs =
      if (backingValue (p.clientProfile defs) defs.KEY_SYNC_DIRECTION).getD "" ==
          defs.VALUE_TWO_WAY then SyncDirection.SYNC_DIRECTION_TWO_WAY
      else if (backingValue (p.clientProfile defs) defs.KEY_SYNC_DIRECTION).getD "" ==
          defs.VALUE_FROM_REMOTE then SyncDirection.SYNC_DIRECTION_FROM_REMOTE
      else if (backingValue (p.clientProfile defs) defs.KEY_SYNC_DIRECTION).getD "" ==
          defs.VALUE_TO_REMOTE then SyncDirection.SYNC_DIRECTION_TO_REMOTE
      else SyncDirection.SYNC_DIRECTION_UNDEFINED := by
  unfold SyncProfile.syncDirection
  cases p.clientProfile defs <;> rfl

theorem conflictResolutionPolicy_eq (defs : ProfileEngineDefs) (p : SyncProfile) :
    p.conflictResolutionPolicy defs =
      if (backingValue (p.clientProfile defs) defs.KEY_CONFLICT_RESOLUTION_POLICY).getD "" ==
          defs.VALUE_PREFER_REMOTE then ConflictResolutionPolicy.CR_POLICY_PREFER_REMOTE_CHANGES
      else if (backingValue (p.clientProfile defs) defs.KEY_CONFLICT_RESOLUTION_POLICY).getD "" ==
          defs.VALUE_PREFER_LOCAL then ConflictResolutionPolicy.CR_POLICY_PREFER_LOCAL_CHANGES
      else ConflictResolutionPolicy.CR_POLICY_UNDEFINED := by
  unfold SyncProfile.conflictResolutionPolicy
  cases p.clientProfile defs <;> rfl

theorem destinationType_eq (defs : ProfileEngineDefs) (p : SyncProfile) :
    p.destinationType defs =
      if (backingValue (p.serviceProfile defs) defs.KEY_DESTINATION_TYPE).getD "" ==
          defs.VALUE_ONLINE then DestinationType.DESTINATION_TYPE_ONLINE
      else if (backingValue (p.serviceProfile defs) defs.KEY_DESTINATION_TYPE).getD "" ==
          defs.VALUE_DEVICE then DestinationType.DESTINATION_TYPE_DEVICE
      else DestinationType.DESTINATION_TYPE_UNDEFINED := by
  unfold SyncProfile.destinationType
  cases p.serviceProfile defs <;> rfl

theorem getD_beq_false_of_unset (o : Option String) (t : String) (ht : t ≠ "")
    (h : o = none ∨ o = some "") : (o.getD "" == t) = false := by
  rcases h with h | h <;> subst h <;> simp [Ne.symm ht]

theorem getD_beq_false_of_ne (o : Option String) (t v : String) (h : o = some v)
    (hv : v ≠ t) : (o.getD "" == t) = false := by
  subst h
  simp [hv]

/-- C11. `syncDirection()`, `conflictResolutionPolicy()` and
`destinationType()` are total functions. Each returns its undefined member
when the backing sub-profile (first client sub-profile, resp. first service
sub-profile) is absent, when the key is missing or empty, and when the value
is a string outside the table; each returns a defined member only when the
value is exactly the table string of that member. The table strings are
constants of a header that is not part of the unit and are assumed non-empty. -/
theorem typed_settings_undefined (defs : ProfileEngineDefs) (p : SyncProfile)
    (hne : tableStringsNonEmpty defs) :
    (p.clientProfile defs = none →
      p.syncDirection defs = SyncDirection.SYNC_DIRECTION_UNDEFINED ∧
      p.conflictResolutionPolicy defs = ConflictResolutionPolicy.CR_POLICY_UNDEFINED) ∧
    (p.serviceProfile defs = none →
      p.destinationType defs = DestinationType.DESTINATION_TYPE_UNDEFINED) ∧
    ((backingValue (p.clientProfile defs) defs.KEY_SYNC_DIRECTION = none ∨
      backingValue (p.clientProfile defs) defs.KEY_SYNC_DIRECTION = some "" ∨
      (∃ v, backingValue (p.clientProfile defs) defs.KEY_SYNC_DIRECTION = some v ∧
        v ≠ defs.VALUE_TWO_WAY ∧ v ≠ defs.VALUE_FROM_REMOTE ∧ v ≠ defs.VALUE_TO_REMOTE)) →
      p.syncDirection defs = SyncDirection.SYNC_DIRECTION_UNDEFINED) ∧
    ((backingValue (p.clientProfile defs) defs.KEY_CONFLICT_RESOLUTION_POLICY = none ∨
      backingValue (p.clientProfile defs) defs.KEY_CONFLICT_RESOLUTION_POLICY = some "" ∨
      (∃ v, backingValue (p.clientProfile defs) defs.KEY_CONFLICT_RESOLUTION_POLICY = some v ∧
        v ≠ defs.VALUE_PREFER_REMOTE ∧ v ≠ defs.VALUE_PREFER_LOCAL)) →
      p.conflictResolutionPolicy defs = ConflictResolutionPolicy.CR_POLICY_UNDEFINED) ∧
    ((backingValue (p.serviceProfile defs) defs.KEY_DESTINATION_TYPE = none ∨
      backingValue (p.serviceProfile defs) defs.KEY_DESTINATION_TYPE = some "" ∨
      (∃ v, backingValue (p.serviceProfile defs) defs.KEY_DESTINATION_TYPE = some v ∧
        v ≠ defs.VALUE_ONLINE ∧ v ≠ defs.VALUE_DEVICE)) →
      p.destinationType defs = DestinationType.DESTINATION_TYPE_UNDEFINED) ∧
    (p.syncDirection defs = SyncDirection.SYNC_DIRECTION_TWO_WAY →
      backingValue (p.clientProfile defs) defs.KEY_SYNC_DIRECTION = some defs.VALUE_TWO_WAY) ∧
    (p.syncDirection defs = SyncDirection.SYNC_DIRECTION_FROM_REMOTE →
      backingValue (p.clientProfile defs) defs.KEY_SYNC_DIRECTION =
        some defs.VALUE_FROM_REMOTE) ∧
    (p.syncDirection defs = SyncDirection.SYNC_DIRECTION_TO_REMOTE →
      backingValue (p.clientProfile defs) defs.KEY_SYNC_DIRECTION = some defs.VALUE_TO_REMOTE) ∧
    (p.conflictResolutionPolicy defs = ConflictResolutionPolicy.CR_POLICY_PREFER_REMOTE_CHANGES →
      backingValue (p.clientProfile defs) defs.KEY_CONFLICT_RESOLUTION_POLICY =
        some defs.VALUE_PREFER_REMOTE) ∧
    (p.conflictResolutionPolicy defs = ConflictResolutionPolicy.CR_POLICY_PREFER_LOCAL_CHANGES →
      backingValue (p.clientProfile defs) defs.KEY_CONFLICT_RESOLUTION_POLICY =
        some defs.VALUE_PREFER_LOCAL) ∧
    (p.destinationType defs = DestinationType.DESTINATION_TYPE_ONLINE →
      backingValue (p.serviceProfile defs) defs.KEY_DESTINATION_TYPE = some defs.VALUE_ONLINE) ∧
    (p.destinationType defs = DestinationType.DESTINATION_TYPE_DEVICE →
      backingValue (p.serviceProfile defs) defs.KEY_DESTINATION_TYPE = some defs.VALUE_DEVICE) := by
  obtain ⟨h1, h2, h3, h4, h5, h6, h7⟩ := hne
  have hdir : ∀ o : Option String,
      (o = none ∨ o = some "" ∨ (∃ v, o = some v ∧
        v ≠ defs.VALUE_TWO_WAY ∧ v ≠ defs.VALUE_FROM_REMOTE ∧ v ≠ defs.VALUE_TO_REMOTE)) →
      (o.getD "" == defs.VALUE_TWO_WAY) = false ∧ (o.getD "" == defs.VALUE_FROM_REMOTE) = false ∧
      (o.getD "" == defs.VALUE_TO_REMOTE) = false := by
    intro o h
    rcases h with h | h | ⟨v, h, n1, n2, n3⟩
    · exact ⟨getD_beq_false_of_unset o _ h1 (Or.inl h), getD_beq_false_of_unset o _ h2 (Or.inl h),
        getD_beq_false_of_unset o _ h3 (Or.inl h)⟩
    · exact ⟨getD_beq_false_of_unset o _ h1 (Or.inr h), getD_beq_false_of_unset o _ h2 (Or.inr h),
        getD_beq_false_of_unset o _ h3 (Or.inr h)⟩
    · exact ⟨getD_beq_false_of_ne o _ v h n1, getD_beq_false_of_ne o _ v h n2,
        getD_beq_false_of_ne o _ v h n3⟩
  have hpair : ∀ (o : Option String) (t1 t2 : String), t1 ≠ "" → t2 ≠ "" →
      (o = none ∨ o = some "" ∨ (∃ v, o = some v ∧ v ≠ t1 ∧ v ≠ t2)) →
      (o.getD "" == t1) = false ∧ (o.getD "" == t2) = false := by
    intro o t1 t2 e1 e2 h
    rcases h with h | h | ⟨v, h, n1, n2⟩
    · exact ⟨getD_beq_false_of_unset o _ e1 (Or.inl h), getD_beq_false_of_unset o _ e2 (Or.inl h)⟩
    · exact ⟨getD_beq_false_of_unset o _ e1 (Or.inr h), getD_beq_false_of_unset o _ e2 (Or.inr h)⟩
    · exact ⟨getD_beq_false_of_ne o _ v h n1, getD_beq_false_of_ne o _ v h n2⟩
  have hdirU : (backingValue (p.clientProfile defs) defs.KEY_SYNC_DIRECTION = none ∨
      backingValue (p.clientProfile defs) defs.KEY_SYNC_DIRECTION = some "" ∨
      (∃ v, backingValue (p.clientProfile defs) defs.KEY_SYNC_DIRECTION = some v ∧
        v ≠ defs.VALUE_TWO_WAY ∧ v ≠ defs.VALUE_FROM_REMOTE ∧ v ≠ defs.VALUE_TO_REMOTE)) →
      p.syncDirection defs = SyncDirection.SYNC_DIRECTION_UNDEFINED := by
    intro h
    obtain ⟨a, b, c⟩ := hdir _ h
    rw [syncDirection_eq]
    simp only [a, b, c, Bool.false_eq_true, if_false]
  have hpolU : (backingValue (p.clientProfile defs) defs.KEY_CONFLICT_RESOLUTION_POLICY = none ∨
      backingValue (p.clientProfile defs) defs.KEY_CONFLICT_RESOLUTION_POLICY = some "" ∨
      (∃ v, backingValue (p.clientProfile defs) defs.KEY_CONFLICT_RESOLUTION_POLICY = some v ∧
        v ≠ defs.VALUE_PREFER_REMOTE ∧ v ≠ defs.VALUE_PREFER_LOCAL)) →
      p.conflictResolutionPolicy defs = ConflictResolutionPolicy.CR_POLICY_UNDEFINED := by
    intro h
    obtain ⟨a, b⟩ := hpair _ _ _ h4 h5 h
    rw [conflictResolutionPolicy_eq]
    simp only [a, b, Bool.false_eq_true, if_false]
  have hdstU : (backingValue (p.serviceProfile defs) defs.KEY_DESTINATION_TYPE = none ∨
      backingValue (p.serviceProfile defs) defs.KEY_DESTINATION_TYPE = some "" ∨
      (∃ v, backingValue (p.serviceProfile defs) defs.KEY_DESTINATION_TYPE = some v ∧
        v ≠ defs.VALUE_ONLINE ∧ v ≠ defs.VALUE_DEVICE)) →
      p.destinationType defs = DestinationType.DESTINATION_TYPE_UNDEFINED := by
    intro h
    obtain ⟨a, b⟩ := hpair _ _ _ h6 h7 h
    rw [destinationType_eq]
    simp only [a, b, Bool.false_eq_true, if_false]
  refine ⟨?_, ?_, hdirU, hpolU, hdstU, ?_, ?_, ?_, ?_, ?_, ?_, ?_⟩
  · intro hno
    exact ⟨hdirU (Or.inl (by rw [hno]; rfl)), hpolU (Or.inl (by rw [hno]; rfl))⟩
  · intro hno
    exact hdstU (Or.inl (by rw [hno]; rfl))
  · intro h
    rw [syncDirection_eq] at h
    split_ifs at h with a
    exact (getD_beq_table _ _ h1).mp a
  · intro h
    rw [syncDirection_eq] at h
    split_ifs at h with a b
    exact (getD_beq_table _ _ h2).mp b
  · intro h
    rw [syncDirection_eq] at h
    split_ifs at h with a b c
    exact (getD_beq_table _ _ h3).mp c
  · intro h
    rw [conflictResolutionPolicy_eq] at h
    split_ifs at h with a
    exact (getD_beq_table _ _ h4).mp a
  · intro h
    rw [conflictResolutionPolicy_eq] at h
    split_ifs at h with a b
    exact (getD_beq_table _ _ h5).mp b
  · intro h
    rw [destinationType_eq] at h
    split_ifs at h with a
    exact (getD_beq_table _ _ h6).mp a
  · intro h
    rw [destinationType_eq] at h
    split_ifs at h with a b
    exact (getD_beq_table _ _ h7).mp b

theorem exDefs_tableStringsNonEmpty : tableStringsNonEmpty exDefs := by
  unfold tableStringsNonEmpty
  decide

theorem exDefs_tableStringsDistinct : tableStringsDistinct exDefs := by
  unfold tableStringsDistinct
  decide

/-- Witness for C11: a profile whose only sub-profile is a storage has neither
a client nor a service sub-profile. -/
theorem typed_settings_undefined_witness :
    (exProfileWith [exStorage "contacts" true []]).syncDirection exDefs =
      SyncDirection.SYNC_DIRECTION_UNDEFINED ∧
    (exProfileWith [exStorage "contacts" true []]).conflictResolutionPolicy exDefs =
      ConflictResolutionPolicy.CR_POLICY_UNDEFINED :=
  (typed_settings_undefined exDefs (exProfileWith [exStorage "contacts" true []])
    exDefs_tableStringsNonEmpty).1 (by decide)

theorem typed_settings_examples :
    (exProfileWith [exClient [("Sync Direction", "from-remote")]]).syncDirection exDefs =
      SyncDirection.SYNC_DIRECTION_FROM_REMOTE ∧
    (exProfileWith [exClient [("Sync Direction", "From-Remote")]]).syncDirection exDefs =
      SyncDirection.SYNC_DIRECTION_UNDEFINED ∧
    (exProfileWith [exClient [("Sync Direction", "")]]).syncDirection exDefs =
      SyncDirection.SYNC_DIRECTION_UNDEFINED ∧
    (exProfileWith [exClient []]).syncDirection exDefs =
      SyncDirection.SYNC_DIRECTION_UNDEFINED ∧
    (exProfileWith [exClient [("conflictpolicy", "prefer local")]]).conflictResolutionPolicy
      exDefs = ConflictResolutionPolicy.CR_POLICY_PREFER_LOCAL_CHANGES ∧
    (exProfileWith [exService [("destinationtype", "device")]]).destinationType exDefs =
      DestinationType.DESTINATION_TYPE_DEVICE ∧
    (exProfileWith [exService [("destinationtype", "cloud")]]).destinationType exDefs =
      DestinationType.DESTINATION_TYPE_UNDEFINED := by
  refine ⟨by decide, by decide, by decide, by decide, by decide, by decide, by decide⟩

/-! ## Setting the direction and the conflict policy -/

theorem find_modifyFirst (isTarget : SubProfile → Bool) (f : SubProfile → SubProfile)
    (hf : ∀ s, isTarget s = true → isTarget (f s) = true) (l : List SubProfile) :
    (modifyFirst isTarget f l).find? isTarget = (l.find? isTarget).map f := by
  induction l with
  | nil => rfl
  | cons x xs ih =>
    unfold modifyFirst
    by_cases hx : isTarget x = true
    · simp only [hx, if_true, List.find?_cons, hf x hx, Option.map_some']
    · have hx2 : isTarget x = false := by
        cases h : isTarget x
        · rfl
        · exact absurd h hx
      simp only [hx2, Bool.false_eq_true, if_false, List.find?_cons]
      exact ih

theorem lookupKey_filter_ne (aName : String) (keys : List (String × String)) :
    lookupKey aName (keys.filter (fun kv => !(kv.1 == aName))) = none := by
  induction keys with
  | nil => rfl
  | cons kv rest ih =>
    obtain ⟨k, v⟩ := kv
    by_cases hk : k = aName
    · simp only [List.filter_cons, hk, beq_self_eq_true, Bool.not_true, Bool.false_eq_true,
        if_false]
      exact ih
    · have hb : (k == aName) = false := by simp [hk]
      simp only [List.filter_cons, hb, Bool.not_false, if_true, lookupKey, Bool.false_eq_true,
        if_false]
      exact ih

theorem backingValue_setKey (cl : SubProfile) (aName : String) (aValue : Option String) :
    backingValue (some (cl.setKey aName aValue)) aName = aValue := by
  cases aValue with
  | none => simp [backingValue, SubProfile.setKey, lookupKey_filter_ne]
  | some v => simp [backingValue, SubProfile.setKey, lookupKey]

theorem setKey_type (cl : SubProfile) (aName : String) (aValue : Option String) :
    (cl.setKey aName aValue).type = cl.type := by
  cases aValue <;> rfl

theorem clientProfile_after_write (defs : ProfileEngineDefs) (p : SyncProfile)
    (aName : String) (aValue : Option String) (cl : SubProfile)
    (hcl : p.clientProfile defs = some cl) :
    (modifyFirst (fun s => s.type == defs.TYPE_CLIENT)
      (fun client => client.setKey aName aValue) p.base.subProfiles).find?
      (fun s => s.type == defs.TYPE_CLIENT) = some (cl.setKey aName aValue) := by
  unfold SyncProfile.clientProfile Profile.allSubProfiles at hcl
  rw [find_modifyFirst, hcl]
  · rfl
  · intro s hs
    rw [setKey_type]
    exact hs

theorem setSyncDirection_client (defs : ProfileEngineDefs) (p : SyncProfile)
    (d : SyncDirection) (cl : SubProfile) (hcl : p.clientProfile defs = some cl) :
    (p.setSyncDirection defs d).clientProfile defs =
      some (cl.setKey defs.KEY_SYNC_DIRECTION
        (match d with
          | SyncDirection.SYNC_DIRECTION_TWO_WAY => some defs.VALUE_TWO_WAY
          | SyncDirection.SYNC_DIRECTION_FROM_REMOTE => some defs.VALUE_FROM_REMOTE
          | SyncDirection.SYNC_DIRECTION_TO_REMOTE => some defs.VALUE_TO_REMOTE
          | SyncDirection.SYNC_DIRECTION_UNDEFINED => none)) := by
  unfold SyncProfile.setSyncDirection
  simp only [hcl]
  exact clientProfile_after_write defs p _ _ cl hcl

theorem setConflictResolutionPolicy_client (defs : ProfileEngineDefs) (p : SyncProfile)
    (c : ConflictResolutionPolicy) (cl : SubProfile) (hcl : p.clientProfile defs = some cl) :
    (p.setConflictResolutionPolicy defs c).clientProfile defs =
      some (cl.setKey defs.KEY_CONFLICT_RESOLUTION_POLICY
        (match c with
          | ConflictResolutionPolicy.CR_POLICY_PREFER_REMOTE_CHANGES =>
            some defs.VALUE_PREFER_REMOTE
          | ConflictResolutionPolicy.CR_POLICY_PREFER_LOCAL_CHANGES =>
            some defs.VALUE_PREFER_LOCAL
          | ConflictResolutionPolicy.CR_POLICY_UNDEFINED => none)) := by
  unfold SyncProfile.setConflictResolutionPolicy
  simp only [hcl]
  exact clientProfile_after_write defs p _ _ cl hcl

/-- C12. Setter/resolver round trip: in a profile with a client sub-profile,
`syncDirection()` after `setSyncDirection(d)` is `d` for each of the four
directions, and `conflictResolutionPolicy()` after
`setConflictResolutionPolicy(c)` is `c` for each of the three policies. The
write goes to the key of the first client sub-profile that the resolver reads,
and setting the undefined member removes the key. The table strings are
constants of a header that is not part of the unit and are assumed non-empty
and pairwise different. -/
theorem setter_resolver_round_trip (defs : ProfileEngineDefs) (p : SyncProfile)
    (cl : SubProfile) (hcl : p.clientProfile defs = some cl)
    (hne : tableStringsNonEmpty defs) (hdist : tableStringsDistinct defs) :
    (∀ d : SyncDirection, (p.setSyncDirection defs d).syncDirection defs = d) ∧
    (∀ c : ConflictResolutionPolicy,
      (p.setConflictResolutionPolicy defs c).conflictResolutionPolicy defs = c) ∧
    (∀ d : SyncDirection, ∃ v, (p.setSyncDirection defs d).clientProfile defs =
      some (cl.setKey defs.KEY_SYNC_DIRECTION v)) ∧
    (∀ c : ConflictResolutionPolicy, ∃ v,
      (p.setConflictResolutionPolicy defs c).clientProfile defs =
        some (cl.setKey defs.KEY_CONFLICT_RESOLUTION_POLICY v)) ∧
    backingValue ((p.setSyncDirection defs
      SyncDirection.SYNC_DIRECTION_UNDEFINED).clientProfile defs) defs.KEY_SYNC_DIRECTION = none ∧
    backingValue ((p.setConflictResolutionPolicy defs
      ConflictResolutionPolicy.CR_POLICY_UNDEFINED).clientProfile defs)
      defs.KEY_CONFLICT_RESOLUTION_POLICY = none := by
  obtain ⟨h1, h2, h3, h4, h5, _, _⟩ := hne
  obtain ⟨d12, d13, d23, dp⟩ := hdist
  refine ⟨?_, ?_, ?_, ?_, ?_, ?_⟩
  · intro d
    rw [syncDirection_eq, setSyncDirection_client defs p d cl hcl, backingValue_setKey]
    cases d
    · simp
    · simp [Ne.symm d12]
    · simp [Ne.symm d13, Ne.symm d23]
    · simp [Ne.symm h1, Ne.symm h2, Ne.symm h3]
  · intro c
    rw [conflictResolutionPolicy_eq, setConflictResolutionPolicy_client defs p c cl hcl,
      backingValue_setKey]
    cases c
    · simp [Ne.symm dp]
    · simp
    · simp [Ne.symm h4, Ne.symm h5]
  · intro d
    exact ⟨_, setSyncDirection_client defs p d cl hcl⟩
  · intro c
    exact ⟨_, setConflictResolutionPolicy_client defs p c cl hcl⟩
  · rw [setSyncDirection_client defs p _ cl hcl, backingValue_setKey]
  · rw [setConflictResolutionPolicy_client defs p _ cl hcl, backingValue_setKey]

/-- Witness for C12: a profile with a storage and two client sub-profiles; the
first client holds an unknown direction string. Setting to-remote and setting
the undefined member are both read back. -/
theorem setter_resolver_round_trip_witness :
    ((exProfileWith [exStorage "contacts" true [],
        exClient [("Sync Direction", "sideways")],
        exClient [("Sync Direction", "two-way")]]).setSyncDirection exDefs
      SyncDirection.SYNC_DIRECTION_TO_REMOTE).syncDirection exDefs =
      SyncDirection.SYNC_DIRECTION_TO_REMOTE ∧
    ((exProfileWith [exStorage "contacts" true [],
        exClient [("Sync Direction", "sideways")],
        exClient [("Sync Direction", "two-way")]]).setSyncDirection exDefs
      SyncDirection.SYNC_DIRECTION_UNDEFINED).syncDirection exDefs =
      SyncDirection.SYNC_DIRECTION_UNDEFINED :=
  ⟨(setter_resolver_round_trip exDefs
      (exProfileWith [exStorage "contacts" true [],
        exClient [("Sync Direction", "sideways")],
        exClient [("Sync Direction", "two-way")]])
      (exClient [("Sync Direction", "sideways")]) (by decide)
      exDefs_tableStringsNonEmpty exDefs_tableStringsDistinct).1
      SyncDirection.SYNC_DIRECTION_TO_REMOTE,
   (setter_resolver_round_trip exDefs
      (exProfileWith [exStorage "contacts" true [],
        exClient [("Sync Direction", "sideways")],
        exClient [("Sync Direction", "two-way")]])
      (exClient [("Sync Direction", "sideways")]) (by decide)
      exDefs_tableStringsNonEmpty exDefs_tableStringsDistinct).1
      SyncDirection.SYNC_DIRECTION_UNDEFINED⟩

theorem setSyncDirection_example :
    ((exProfileWith [exStorage "contacts" true [],
        exClient [("Sync Direction", "sideways"), ("x", "y")],
        exClient []]).setSyncDirection exDefs
        SyncDirection.SYNC_DIRECTION_TO_REMOTE).base.subProfiles =
      [exStorage "contacts" true [],
        exClient [("Sync Direction", "to-remote"), ("x", "y")], exClient []] ∧
    ((exProfileWith [exStorage "contacts" true [],
        exClient [("Sync Direction", "sideways"), ("x", "y")],
        exClient []]).setSyncDirection exDefs
        SyncDirection.SYNC_DIRECTION_UNDEFINED).base.subProfiles =
      [exStorage "contacts" true [], exClient [("x", "y")], exClient []] := by
  refine ⟨by decide, by decide⟩

/-- C13. In a profile without client sub-profile, `setSyncDirection` and
`setConflictResolutionPolicy` return normally for every argument and leave the
profile as it is: the keys of the profile and of all sub-profiles, the retry
state, the schedule and the log; `syncDirection()` and
`conflictResolutionPolicy()` are unchanged and, the table strings being
non-empty, undefined. -/
theorem setters_without_client (defs : ProfileEngineDefs) (p : SyncProfile)
    (hno : p.clientProfile defs = none) (d : SyncDirection) (c : ConflictResolutionPolicy) :
    p.setSyncDirection defs d = p ∧
    p.setConflictResolutionPolicy defs c = p ∧
    (p.setSyncDirection defs d).syncDirection defs = p.syncDirection defs ∧
    (p.setConflictResolutionPolicy defs c).conflictResolutionPolicy defs =
      p.conflictResolutionPolicy defs ∧
    (tableStringsNonEmpty defs →
      (p.setSyncDirection defs d).syncDirection defs =
        SyncDirection.SYNC_DIRECTION_UNDEFINED ∧
      (p.setConflictResolutionPolicy defs c).conflictResolutionPolicy defs =
        ConflictResolutionPolicy.CR_POLICY_UNDEFINED) := by
  have e1 : p.setSyncDirection defs d = p := by
    unfold SyncProfile.setSyncDirection
    simp only [hno]
  have e2 : p.setConflictResolutionPolicy defs c = p := by
    unfold SyncProfile.setConflictResolutionPolicy
    simp only [hno]
  refine ⟨e1, e2, by rw [e1], by rw [e2], ?_⟩
  intro hne
  obtain ⟨h1, h2, h3, h4, h5, _, _⟩ := hne
  rw [e1, e2, syncDirection_eq, conflictResolutionPolicy_eq, hno]
  simp [backingValue, Ne.symm h1, Ne.symm h2, Ne.symm h3, Ne.symm h4, Ne.symm h5]

/-- Witness for C13: a profile whose sub-profiles are a storage and a service. -/
theorem setters_without_client_witness :
    (exProfileWith [exStorage "contacts" true [], exService []]).setSyncDirection exDefs
        SyncDirection.SYNC_DIRECTION_TWO_WAY =
      exProfileWith [exStorage "contacts" true [], exService []] ∧
    ((exProfileWith [exStorage "contacts" true [], exService []]).setSyncDirection exDefs
        SyncDirection.SYNC_DIRECTION_TWO_WAY).syncDirection exDefs =
      SyncDirection.SYNC_DIRECTION_UNDEFINED :=
  ⟨(setters_without_client exDefs (exProfileWith [exStorage "contacts" true [], exService []])
      (by decide) SyncDirection.SYNC_DIRECTION_TWO_WAY
      ConflictResolutionPolicy.CR_POLICY_UNDEFINED).1,
   ((setters_without_client exDefs (exProfileWith [exStorage "contacts" true [], exService []])
      (by decide) SyncDirection.SYNC_DIRECTION_TWO_WAY
      ConflictResolutionPolicy.CR_POLICY_UNDEFINED).2.2.2.2 exDefs_tableStringsNonEmpty).1⟩

/-! ## The sync-on-change delay -/

theorem toUInt_empty : QString.toUInt "" = none := by decide

theorem quint32OfInt_minus_one : quint32OfInt (-1) = 4294967295 := by decide

theorem eq_empty_of_isEmpty (s : String) (h : QString.isEmpty s = true) : s = "" := by
  cases s with
  | mk data =>
    unfold QString.isEmpty at h
    simp only [List.isEmpty_eq_true] at h
    subst h
    rfl

theorem toUInt_le (s : String) (v : Nat) (h : QString.toUInt s = some v) : v ≤ 4294967295 := by
  unfold QString.toUInt at h
  split at h
  · simp at h
  · split_ifs at h
    · split at h
      · simp at h
      · split_ifs at h with hle
        simp only [Option.some.injEq] at h
        omega
    · split at h
      · simp at h
      · split_ifs at h with hle
        simp only [Option.some.injEq] at h
        omega

theorem syncOnChangeAfter_eq (defs : ProfileEngineDefs) (p : SyncProfile) :
    p.syncOnChangeAfter defs =
      match QString.toUInt ((backingValue (p.clientProfile defs) defs.KEY_SOC_AFTER).getD "") with
      | some v => v
      | none => 4294967295 := by
  unfold SyncProfile.syncOnChangeAfter
  simp only [quint32OfInt_minus_one]
  cases hc : p.clientProfile defs with
  | none => simp [backingValue, toUInt_empty]
  | some client =>
    simp only [backingValue, SubProfile.key]
    by_cases he : QString.isEmpty ((lookupKey defs.KEY_SOC_AFTER client.keys).getD "") = true
    · simp only [he, Bool.not_true, Bool.false_eq_true, if_false]
      rw [eq_empty_of_isEmpty _ he, toUInt_empty]
    · simp only [he, Bool.not_false, if_true]

/-- C14. `syncOnChangeAfter()` returns `2^32 - 1`, which is not 0, when the
client sub-profile is absent, when its sync-on-change key is missing or empty,
and when the string does not parse as an unsigned 32-bit integer; when the
string parses as the unsigned 32-bit integer `v` it returns `v`. A result of
0 is returned only for a key whose string parses as 0. -/
theorem syncOnChangeAfter_spec (defs : ProfileEngineDefs) (p : SyncProfile) :
    (p.clientProfile defs = none → p.syncOnChangeAfter defs = 4294967295) ∧
    ((backingValue (p.clientProfile defs) defs.KEY_SOC_AFTER = none ∨
      backingValue (p.clientProfile defs) defs.KEY_SOC_AFTER = some "" ∨
      (∃ t, backingValue (p.clientProfile defs) defs.KEY_SOC_AFTER = some t ∧
        QString.toUInt t = none)) →
      p.syncOnChangeAfter defs = 4294967295 ∧ p.syncOnChangeAfter defs ≠ 0) ∧
    (∀ t v, backingValue (p.clientProfile defs) defs.KEY_SOC_AFTER = some t →
      QString.toUInt t = some v → p.syncOnChangeAfter defs = v) ∧
    (p.syncOnChangeAfter defs = 0 →
      ∃ t, backingValue (p.clientProfile defs) defs.KEY_SOC_AFTER = some t ∧
        QString.toUInt t = some 0) ∧
    p.syncOnChangeAfter defs ≤ 4294967295 := by
  have hunset : (backingValue (p.clientProfile defs) defs.KEY_SOC_AFTER = none ∨
      backingValue (p.clientProfile defs) defs.KEY_SOC_AFTER = some "" ∨
      (∃ t, backingValue (p.clientProfile defs) defs.KEY_SOC_AFTER = some t ∧
        QString.toUInt t = none)) → p.syncOnChangeAfter defs = 4294967295 := by
    intro h
    rw [syncOnChangeAfter_eq]
    rcases h with h | h | ⟨t, h, ht⟩
    · rw [h]; simp [toUInt_empty]
    · rw [h]; simp [toUInt_empty]
    · rw [h]; simp [ht]
  refine ⟨?_, ?_, ?_, ?_, ?_⟩
  · intro hno
    exact hunset (Or.inl (by rw [hno]; rfl))
  · intro h
    have := hunset h
    exact ⟨this, by omega⟩
  · intro t v ht hv
    rw [syncOnChangeAfter_eq, ht]
    simp [hv]
  · intro h0
    rw [syncOnChangeAfter_eq] at h0
    cases hb : backingValue (p.clientProfile defs) defs.KEY_SOC_AFTER with
    | none =>
      rw [hb] at h0
      simp [toUInt_empty] at h0
    | some t =>
      rw [hb] at h0
      simp only [Option.getD_some] at h0
      cases ht : QString.toUInt t with
      | none => rw [ht] at h0; simp at h0
      | some v =>
        rw [ht] at h0
        simp only at h0
        exact ⟨t, rfl, by rw [ht, h0]⟩
  · rw [syncOnChangeAfter_eq]
    cases ht : QString.toUInt ((backingValue (p.clientProfile defs) defs.KEY_SOC_AFTER).getD "") with
    | none => simp
    | some v => exact toUInt_le _ v ht

/-- Witness for C14: profiles without client, with an unparsable value, and
with the values `0` and `4294967295`. -/
theorem syncOnChangeAfter_spec_witness :
    (exProfileWith [exStorage "contacts" true []]).syncOnChangeAfter exDefs = 4294967295 ∧
    (exProfileWith [exClient [("syncOnChangeAfter", "0")]]).syncOnChangeAfter exDefs = 0 :=
  ⟨(syncOnChangeAfter_spec exDefs (exProfileWith [exStorage "contacts" true []])).1 (by decide),
   (syncOnChangeAfter_spec exDefs (exProfileWith [exClient [("syncOnChangeAfter", "0")]])).2.2.1
     "0" 0 (by decide) (by decide)⟩

theorem syncOnChangeAfter_examples :
    (exProfileWith [exClient [("syncOnChangeAfter", "30")]]).syncOnChangeAfter exDefs = 30 ∧
    (exProfileWith [exClient [("syncOnChangeAfter", "-1")]]).syncOnChangeAfter exDefs =
      4294967295 ∧
    (exProfileWith [exClient [("syncOnChangeAfter", "4294967296")]]).syncOnChangeAfter exDefs =
      4294967295 ∧
    (exProfileWith [exClient [("syncOnChangeAfter", "")]]).syncOnChangeAfter exDefs =
      4294967295 ∧
    (exProfileWith [exClient []]).syncOnChangeAfter exDefs = 4294967295 ∧
    (exProfileWith [exClient [("syncOnChangeAfter", "soon")]]).syncOnChangeAfter exDefs =
      4294967295 := by
  refine ⟨by decide, by decide, by decide, by decide, by decide, by decide⟩

/-! ## Invariants of the reachable states -/

theorem RetryOp_apply_intervals (r : RetryOp) (p : SyncProfile) :
    (r.apply p).d_ptr.mSyncRetryIntervals = p.d_ptr.mSyncRetryIntervals := by
  cases r <;> rfl

theorem Op_apply_intervals (defs : ProfileEngineDefs) (bs : ProfileSetters) (op : Op)
    (p : SyncProfile) :
    (op.apply defs bs p).d_ptr.mSyncRetryIntervals = p.d_ptr.mSyncRetryIntervals := by
  cases op with
  | retry r => exact RetryOp_apply_intervals r p
  | setName aName => rfl
  | setNameFromKeys aKeys => rfl
  | setLog aLog => rfl
  | addResults aResults => rfl
  | setSyncType aType => rfl
  | setSyncSchedule aSchedule => rfl
  | setSyncDirection aDirection =>
    simp only [Op.apply, SyncProfile.setSyncDirection]
    split <;> rfl
  | setConflictResolutionPolicy aPolicy =>
    simp only [Op.apply, SyncProfile.setConflictResolutionPolicy]
    split <;> rfl

theorem runOps_intervals (defs : ProfileEngineDefs) (bs : ProfileSetters) (ops : List Op) :
    ∀ p : SyncProfile,
      (runOps defs bs ops p).d_ptr.mSyncRetryIntervals = p.d_ptr.mSyncRetryIntervals := by
  induction ops with
  | nil => intro p; rfl
  | cons op rest ih =>
    intro p
    unfold runOps
    rw [ih, Op_apply_intervals]

theorem delayListInvariant_new (defs : ProfileEngineDefs) (c : Collaborators) (aName : String) :
    delayListInvariant (SyncProfile.new defs c aName).d_ptr.mSyncRetryIntervals := by
  rw [new_intervals]
  unfold delayListInvariant
  simp

theorem delayListInvariant_fromXml (defs : ProfileEngineDefs) (c : Collaborators)
    (aRoot : QDomNode) :
    delayListInvariant (SyncProfile.fromXml defs c aRoot).d_ptr.mSyncRetryIntervals := by
  rw [fromXml_intervals_spec]
  refine ⟨by simp [specDelayList], by simp [specDelayList], specDelayList_tail_pos defs aRoot⟩

/-- C15. Delay-list invariant: a profile constructed by name or loaded from
any document has a delay list of length at least 1 whose element 0 is 0 and
whose later elements are strictly positive; every retry operation
(`setNextAttempt`, `resetAttempts`, `setSyncRetryAttemp`) and every setter of
the class leaves the delay list unchanged, so the invariant holds after every
sequence of these operations on such a profile. -/
theorem delay_list_invariant (defs : ProfileEngineDefs) (c : Collaborators)
    (bs : ProfileSetters) (ops : List Op) :
    (∀ aName : String,
      delayListInvariant (SyncProfile.new defs c aName).d_ptr.mSyncRetryIntervals ∧
      delayListInvariant
        (runOps defs bs ops (SyncProfile.new defs c aName)).d_ptr.mSyncRetryIntervals) ∧
    (∀ aRoot : QDomNode,
      delayListInvariant (SyncProfile.fromXml defs c aRoot).d_ptr.mSyncRetryIntervals ∧
      delayListInvariant
        (runOps defs bs ops (SyncProfile.fromXml defs c aRoot)).d_ptr.mSyncRetryIntervals) ∧
    (∀ (p : SyncProfile) (op : Op),
      (op.apply defs bs p).d_ptr.mSyncRetryIntervals = p.d_ptr.mSyncRetryIntervals) ∧
    (∀ p : SyncProfile,
      (runOps defs bs ops p).d_ptr.mSyncRetryIntervals = p.d_ptr.mSyncRetryIntervals) := by
  refine ⟨?_, ?_, ?_, ?_⟩
  · intro aName
    refine ⟨delayListInvariant_new defs c aName, ?_⟩
    rw [runOps_intervals]
    exact delayListInvariant_new defs c aName
  · intro aRoot
    refine ⟨delayListInvariant_fromXml defs c aRoot, ?_⟩
    rw [runOps_intervals]
    exact delayListInvariant_fromXml defs c aRoot
  · intro p op
    exact Op_apply_intervals defs bs op p
  · exact runOps_intervals defs bs ops

theorem delay_list_invariant_example :
    (runOps exDefs exSetters
      [Op.retry RetryOp.setNextAttempt, Op.setName "q", Op.setSyncType SyncType.SYNC_SCHEDULED,
        Op.addResults { syncTime := QDateTime.secs 10 },
        Op.setSyncDirection SyncDirection.SYNC_DIRECTION_TWO_WAY,
        Op.retry (RetryOp.setSyncRetryAttemp 9), Op.retry RetryOp.resetAttempts]
      (SyncProfile.fromXml exDefs exCollab
        (exDocument [[("value", "5")], [("value", "15")]]))).d_ptr.mSyncRetryIntervals =
      [0, 5, 15] := by decide

theorem runRetryOps_counter_range (ops : List RetryOp) :
    ∀ p : SyncProfile,
      0 ≤ p.syncCurrentAttempt → p.syncCurrentAttempt ≤ p.syncRetryAttemptsCount →
      p.syncRetryAttemptsCount ≤ INT_MAX → disciplined ops p = true →
      0 ≤ (runRetryOps ops p).syncCurrentAttempt ∧
      (runRetryOps ops p).syncCurrentAttempt ≤ (runRetryOps ops p).syncRetryAttemptsCount ∧
      (runRetryOps ops p).syncRetryAttemptsCount = p.syncRetryAttemptsCount := by
  induction ops with
  | nil =>
    intro p h0 hn _ _
    exact ⟨h0, hn, rfl⟩
  | cons op rest ih =>
    intro p h0 hn hmax hd
    unfold disciplined at hd
    simp only [Bool.and_eq_true] at hd
    obtain ⟨hop, hrest⟩ := hd
    have hcnt : (op.apply p).syncRetryAttemptsCount = p.syncRetryAttemptsCount := by
      unfold SyncProfile.syncRetryAttemptsCount
      rw [RetryOp_apply_intervals]
    have hstep : 0 ≤ (op.apply p).syncCurrentAttempt ∧
        (op.apply p).syncCurrentAttempt ≤ p.syncRetryAttemptsCount := by
      cases op with
      | setNextAttempt =>
        have hlt : p.d_ptr.mSyncRetryCount < QList.count p.d_ptr.mSyncRetryIntervals := by
          simpa [RetryOp.allowed, SyncProfile.needNextAttempt] using hop
        unfold SyncProfile.syncCurrentAttempt SyncProfile.syncRetryAttemptsCount at *
        have hw : (RetryOp.setNextAttempt.apply p).d_ptr.mSyncRetryCount =
            p.d_ptr.mSyncRetryCount + 1 := by
          show wrapInt32 (p.d_ptr.mSyncRetryCount + 1) = p.d_ptr.mSyncRetryCount + 1
          apply wrapInt32_of_isInt32
          unfold isInt32 INT_MIN
          unfold INT_MAX at hmax ⊢
          omega
        rw [hw]
        omega
      | resetAttempts =>
        unfold SyncProfile.syncCurrentAttempt SyncProfile.syncRetryAttemptsCount at *
        show (0 : Int) ≤ 0 ∧ (0 : Int) ≤ QList.count p.d_ptr.mSyncRetryIntervals
        omega
      | setSyncRetryAttemp aRetry =>
        have hr : 0 ≤ aRetry ∧ aRetry ≤ p.syncRetryAttemptsCount := by
          simpa [RetryOp.allowed] using hop
        exact hr
    have := ih (op.apply p) hstep.1 (by rw [hcnt]; exact hstep.2) (by rw [hcnt]; exact hmax) hrest
    unfold runRetryOps
    rw [hcnt] at this
    exact this

/-- C16 (counterexample). On a profile constructed by name (`n = 1`) two
calls of `setNextAttempt()` give `currentAttempt = 2 > n`, and
`setSyncRetryAttemp(-1)` gives `currentAttempt = -1 < 0`. -/
theorem attempt_counter_invariant_counterexample :
    (runRetryOps [RetryOp.setNextAttempt, RetryOp.setNextAttempt]
      (SyncProfile.new exDefs exCollab "p")).syncCurrentAttempt = 2 ∧
    (runRetryOps [RetryOp.setNextAttempt, RetryOp.setNextAttempt]
      (SyncProfile.new exDefs exCollab "p")).syncRetryAttemptsCount = 1 ∧
    ¬ ((runRetryOps [RetryOp.setNextAttempt, RetryOp.setNextAttempt]
        (SyncProfile.new exDefs exCollab "p")).syncCurrentAttempt ≤
      (runRetryOps [RetryOp.setNextAttempt, RetryOp.setNextAttempt]
        (SyncProfile.new exDefs exCollab "p")).syncRetryAttemptsCount) ∧
    ¬ (0 ≤ (runRetryOps [RetryOp.setSyncRetryAttemp (-1)]
        (SyncProfile.new exDefs exCollab "p")).syncCurrentAttempt) := by
  refine ⟨by decide, by decide, by decide, by decide⟩

/-- C16 (amended). The attempt counter is 0 immediately after construction (by
name or from a document), and `0 ≤ currentAttempt ≤ n` holds after every
sequence of retry operations in which `setNextAttempt()` is called only while
`needNextAttempt()` is true and `setSyncRetryAttemp(k)` only with
`0 ≤ k ≤ n`; `n`, the length of the delay list, is an `int`. -/
theorem attempt_counter_invariant (defs : ProfileEngineDefs) (c : Collaborators)
    (ops : List RetryOp) :
    (∀ aName : String,
      (SyncProfile.new defs c aName).syncCurrentAttempt = 0 ∧
      (disciplined ops (SyncProfile.new defs c aName) = true →
        0 ≤ (runRetryOps ops (SyncProfile.new defs c aName)).syncCurrentAttempt ∧
        (runRetryOps ops (SyncProfile.new defs c aName)).syncCurrentAttempt ≤
          (runRetryOps ops (SyncProfile.new defs c aName)).syncRetryAttemptsCount)) ∧
    (∀ aRoot : QDomNode,
      (SyncProfile.fromXml defs c aRoot).syncCurrentAttempt = 0 ∧
      ((SyncProfile.fromXml defs c aRoot).syncRetryAttemptsCount ≤ INT_MAX →
        disciplined ops (SyncProfile.fromXml defs c aRoot) = true →
        0 ≤ (runRetryOps ops (SyncProfile.fromXml defs c aRoot)).syncCurrentAttempt ∧
        (runRetryOps ops (SyncProfile.fromXml defs c aRoot)).syncCurrentAttempt ≤
          (runRetryOps ops (SyncProfile.fromXml defs c aRoot)).syncRetryAttemptsCount)) := by
  constructor
  · intro aName
    refine ⟨rfl, ?_⟩
    intro hd
    have h := runRetryOps_counter_range ops (SyncProfile.new defs c aName)
      (by show (0 : Int) ≤ 0; omega)
      (by show (0 : Int) ≤ QList.count [0]; decide)
      (by show QList.count [0] ≤ INT_MAX; decide) hd
    exact ⟨h.1, h.2.1⟩
  · intro aRoot
    have h0 : (SyncProfile.fromXml defs c aRoot).syncCurrentAttempt = 0 :=
      fromXml_count defs c aRoot
    refine ⟨h0, ?_⟩
    intro hmax hd
    have h := runRetryOps_counter_range ops (SyncProfile.fromXml defs c aRoot)
      (by rw [h0])
      (by rw [h0]; unfold SyncProfile.syncRetryAttemptsCount QList.count; omega)
      hmax hd
    exact ⟨h.1, h.2.1⟩

/-- Witness for C16: the profile loaded with delays `[0, 5, 15]` runs through
its three attempts, is reset and is set to attempt 2. -/
theorem attempt_counter_invariant_witness :
    0 ≤ (runRetryOps
        [RetryOp.setNextAttempt, RetryOp.setNextAttempt, RetryOp.setNextAttempt,
          RetryOp.resetAttempts, RetryOp.setSyncRetryAttemp 2]
        (SyncProfile.fromXml exDefs exCollab
          (exDocument [[("value", "5")], [("value", "15")]]))).syncCurrentAttempt ∧
    (runRetryOps
        [RetryOp.setNextAttempt, RetryOp.setNextAttempt, RetryOp.setNextAttempt,
          RetryOp.resetAttempts, RetryOp.setSyncRetryAttemp 2]
        (SyncProfile.fromXml exDefs exCollab
          (exDocument [[("value", "5")], [("value", "15")]]))).syncCurrentAttempt ≤
      (runRetryOps
        [RetryOp.setNextAttempt, RetryOp.setNextAttempt, RetryOp.setNextAttempt,
          RetryOp.resetAttempts, RetryOp.setSyncRetryAttemp 2]
        (SyncProfile.fromXml exDefs exCollab
          (exDocument [[("value", "5")], [("value", "15")]]))).syncRetryAttemptsCount :=
  ((attempt_counter_invariant exDefs exCollab
      [RetryOp.setNextAttempt, RetryOp.setNextAttempt, RetryOp.setNextAttempt,
        RetryOp.resetAttempts, RetryOp.setSyncRetryAttemp 2]).2
    (exDocument [[("value", "5")], [("value", "15")]])).2 (by decide) (by decide)

end Buteo
